import Mathlib

/-!
Shallow embedding of the carousel editor core
(`src/hooks/useCanvasEditor.ts`, `src/hooks/useCarouselProject.ts`,
`src/types/carousel.ts`).

Modelling conventions:
* JavaScript numbers are modelled as exact rationals (`ℚ`); every arithmetic
  expression of the source is translated literally (decimal literals such as
  `0.1` are exact in `ℚ`).
* `undefined`/`null` optional values become `Option`.
* A fabric.js image object is modelled by `CanvasObject`; its mutable
  `filters` array is a `List FilterOp`, the ordered op list produced by the
  grading pipeline.
* Layer ids are created by the source exclusively as the string
  `{type}-{n}` (a kind tag followed by a decimal counter value); the model
  stores the two components structurally in `LayerId`, whose equality
  coincides with string equality of the rendered id.
* React state plus refs of `useCanvasEditor` are collected in `EditorState`;
  each exported callback becomes a state-transformation function.  The
  `useEffect` that keeps the layer counter ahead of the maximal id suffix is
  applied at the end of every operation that changes the layer list
  (`reseedCounter`).
-/

namespace Carousel

/-- The nine named LUT presets of `types/carousel.ts`. -/
inductive LutPreset
  | turquoise | gold | silver | cinematic | matte | vibrant | noir | pastel | sunset
deriving DecidableEq

/-- The `type` field of a `Layer` record. -/
inductive LayerKind
  | image | video | text
deriving DecidableEq

/-- The fabric object type tag: `addVideo` also creates a fabric *image*
object, so only `image` and `text` occur on the canvas. -/
inductive FabricKind
  | image | text
deriving DecidableEq

/-- CSS blend modes supported for text (`BlendMode` in `types/carousel.ts`). -/
inductive BlendMode
  | normal | multiply | screen | overlay | softLight
deriving DecidableEq

/-- The two font families of `types/carousel.ts`. -/
inductive FontFamily
  | inter | instrumentSerif
deriving DecidableEq

/-- `fontStyle` values. -/
inductive FontStyle
  | normal | italic
deriving DecidableEq

/-- An `{r, g, b}` triple as used by the color wheels and bars. -/
structure RGB where
  r : ℚ
  g : ℚ
  b : ℚ
deriving DecidableEq

/-- A curve control point in the unit square (`CurvePoint`). -/
structure CurvePoint where
  x : ℚ
  y : ℚ
deriving DecidableEq

/-- `ManualAdjustments` of `types/carousel.ts`. -/
structure ManualAdjustments where
  exposure : ℚ
  contrast : ℚ
  saturation : ℚ
  temperature : ℚ
deriving DecidableEq

/-- `ColorWheel` of `types/carousel.ts`. -/
structure ColorWheel where
  lift : RGB
  gamma : RGB
  gain : RGB
  offset : RGB
deriving DecidableEq

/-- `PrimaryAdjustments` of `types/carousel.ts`. -/
structure PrimaryAdjustments where
  contrast : ℚ
  pivot : ℚ
  saturation : ℚ
  hue : ℚ
  temperature : ℚ
  tint : ℚ
  midtoneDetail : ℚ
  colorBoost : ℚ
  shadowLift : ℚ
  highlightGain : ℚ
deriving DecidableEq

/-- `PrimaryBars` of `types/carousel.ts`. -/
structure PrimaryBars where
  lift : RGB
  gamma : RGB
  gain : RGB
  offset : RGB
deriving DecidableEq

/-- `RGBCurves` of `types/carousel.ts`. -/
structure RGBCurves where
  master : List CurvePoint
  red : List CurvePoint
  green : List CurvePoint
  blue : List CurvePoint
deriving DecidableEq

/-- `AdvancedCurves` of `types/carousel.ts`. -/
structure AdvancedCurves where
  hueVsHue : List CurvePoint
  hueVsSat : List CurvePoint
  hueVsLum : List CurvePoint
  lumVsSat : List CurvePoint
  satVsSat : List CurvePoint
deriving DecidableEq

/-- One HSL channel adjustment. -/
structure HSLAdjustment where
  hue : ℚ
  saturation : ℚ
  luminance : ℚ
deriving DecidableEq

/-- `HSLAdjustments`: the six color ranges. -/
structure HSLAdjustments where
  reds : HSLAdjustment
  yellows : HSLAdjustment
  greens : HSLAdjustment
  cyans : HSLAdjustment
  blues : HSLAdjustment
  magentas : HSLAdjustment
deriving DecidableEq

/-- `AdvancedAdjustments` of `types/carousel.ts`. -/
structure AdvancedAdjustments where
  vibrance : ℚ
  highlights : ℚ
  shadows : ℚ
  whites : ℚ
  blacks : ℚ
  tint : ℚ
deriving DecidableEq

/-- `RGBMixer`: the 3×3 channel cross mixer. -/
structure RGBMixer where
  redToRed : ℚ
  redToGreen : ℚ
  redToBlue : ℚ
  greenToRed : ℚ
  greenToGreen : ℚ
  greenToBlue : ℚ
  blueToRed : ℚ
  blueToGreen : ℚ
  blueToBlue : ℚ
deriving DecidableEq

/-- `AdvancedColorGrade`: all optional sub-blocks. -/
structure AdvancedColorGrade where
  colorWheels : Option ColorWheel := none
  primaryAdjustments : Option PrimaryAdjustments := none
  primaryBars : Option PrimaryBars := none
  curves : Option RGBCurves := none
  advancedCurves : Option AdvancedCurves := none
  hslAdjustments : Option HSLAdjustments := none
  advancedAdjustments : Option AdvancedAdjustments := none
  rgbMixer : Option RGBMixer := none
deriving DecidableEq

/-- A layer id `{type}-{n}`: the kind tag and the decimal counter suffix,
stored structurally (the string rendering is injective in these two
components, so id equality is equality of this pair). -/
structure LayerId where
  kind : LayerKind
  num : Nat
deriving DecidableEq

/-- A `Layer` record (`types/carousel.ts`). -/
structure Layer where
  id : LayerId
  type : LayerKind
  name : String
  visible : Bool
  locked : Bool
  sourceUrl : Option String := none
  lutPreset : Option LutPreset := none
  lutIntensity : Option ℚ := none
  manualAdjustments : Option ManualAdjustments := none
  advancedColorGrade : Option AdvancedColorGrade := none
deriving DecidableEq

/-- A primitive fabric.js image operation as pushed by
`applyAllFiltersToImage` (`filters.Brightness`, `filters.Contrast`,
`filters.Saturation`, `filters.HueRotation`, `filters.ColorMatrix`,
`filters.Convolute`). -/
inductive FilterOp
  | brightness (b : ℚ)
  | contrast (c : ℚ)
  | saturation (s : ℚ)
  | hueRotation (rotation : ℚ)
  | colorMatrix (matrix : List ℚ)
  | convolute (matrix : List ℚ)
deriving DecidableEq

/-- Stable insertion of a point into a list sorted by `x`
(used to model the stable JavaScript `sort((a, b) => a.x - b.x)`). -/
def insertByX (p : CurvePoint) : List CurvePoint → List CurvePoint
  | [] => [p]
  | q :: rest => if p.x ≤ q.x then p :: q :: rest else q :: insertByX p rest

/-- Stable sort of control points by their `x` coordinate, modelling
`[...points].sort((a, b) => a.x - b.x)`. -/
def sortByX : List CurvePoint → List CurvePoint
  | [] => []
  | p :: rest => insertByX p (sortByX rest)

/-- The interpolation loop of `evaluateCurve`: scan adjacent sorted points,
return the linear interpolation on the first segment containing `x`, and
fall through to `x` itself (the source reaches this only after the clamp,
so `x` is already clamped there). -/
def interpSegments (x : ℚ) : List CurvePoint → ℚ
  | p :: q :: rest =>
      if p.x ≤ x ∧ x ≤ q.x then
        p.y + (x - p.x) / (q.x - p.x) * (q.y - p.y)
      else interpSegments x (q :: rest)
  | _ => x

/-- `evaluateCurve` of `useCanvasEditor.ts` (defined twice identically in the
source, for the advanced curves and for the RGB curves): 0 points is the
identity, 1 point is a constant, otherwise sort by `x`, clamp `x` to
`[0, 1]`, clamp to the first/last point's `y` outside the sorted range, and
piecewise-linearly interpolate inside it. -/
def evaluateCurve (points : List CurvePoint) (x : ℚ) : ℚ :=
  match points with
  | [] => x
  | [p] => p.y
  | _ :: _ :: _ =>
    match sortByX points with
    | [] => max 0 (min 1 x)
    | first :: rest =>
      let xc := max 0 (min 1 x)
      let lastP := (first :: rest).getLast (List.cons_ne_nil _ _)
      if xc ≤ first.x then first.y
      else if lastP.x ≤ xc then lastP.y
      else interpSegments xc (first :: rest)

/-- `averageDelta`: sample the curve at 8 evenly spaced points of `[0, 1]`
and average the deviation from the identity. -/
def averageDelta (points : List CurvePoint) : ℚ :=
  (((List.range 8).map (fun i => (i : ℚ) / 7)).foldl
    (fun total x => total + (evaluateCurve points x - x)) 0) / 8

/-- Section 1 of `applyAllFiltersToImage`: the manual adjustments, each op
emitted only when its slider is non-zero. -/
def manualFilterOps : Option ManualAdjustments → List FilterOp
  | none => []
  | some adj =>
    (if adj.exposure ≠ 0 then [FilterOp.brightness (adj.exposure / 100)] else []) ++
    (if adj.contrast ≠ 0 then [FilterOp.contrast (adj.contrast / 100)] else []) ++
    (if adj.saturation ≠ 0 then [FilterOp.saturation (adj.saturation / 100)] else []) ++
    (if adj.temperature ≠ 0 then [FilterOp.hueRotation (adj.temperature / 100 * 0.1)] else [])

/-- Color wheels block (lift, gamma, gain, offset) of section 2. -/
def colorWheelOps (cw : ColorWheel) : List FilterOp :=
  (if cw.lift.r ≠ 0 ∨ cw.lift.g ≠ 0 ∨ cw.lift.b ≠ 0 then
    [FilterOp.colorMatrix
      [1, 0, 0, 0, cw.lift.r / 200,
       0, 1, 0, 0, cw.lift.g / 200,
       0, 0, 1, 0, cw.lift.b / 200,
       0, 0, 0, 1, 0]]
  else []) ++
  (if cw.gamma.r ≠ 0 ∨ cw.gamma.g ≠ 0 ∨ cw.gamma.b ≠ 0 then
    [FilterOp.colorMatrix
      [1 + cw.gamma.r / 300, 0, 0, 0, 0,
       0, 1 + cw.gamma.g / 300, 0, 0, 0,
       0, 0, 1 + cw.gamma.b / 300, 0, 0,
       0, 0, 0, 1, 0]]
  else []) ++
  (if cw.gain.r ≠ 0 ∨ cw.gain.g ≠ 0 ∨ cw.gain.b ≠ 0 then
    [FilterOp.colorMatrix
      [1 + cw.gain.r / 200, 0, 0, 0, 0,
       0, 1 + cw.gain.g / 200, 0, 0, 0,
       0, 0, 1 + cw.gain.b / 200, 0, 0,
       0, 0, 0, 1, 0]]
  else []) ++
  (if cw.offset.r ≠ 0 ∨ cw.offset.g ≠ 0 ∨ cw.offset.b ≠ 0 then
    [FilterOp.colorMatrix
      [1, 0, 0, 0, cw.offset.r / 200,
       0, 1, 0, 0, cw.offset.g / 200,
       0, 0, 1, 0, cw.offset.b / 200,
       0, 0, 0, 1, 0]]
  else [])

/-- Primary adjustments block of section 2. -/
def primaryAdjustmentOps (pa : PrimaryAdjustments) : List FilterOp :=
  (if pa.contrast ≠ 0 then [FilterOp.contrast (pa.contrast / 100)] else []) ++
  (if pa.pivot ≠ 0 then [FilterOp.brightness (pa.pivot / 250)] else []) ++
  (if pa.saturation ≠ 0 then [FilterOp.saturation (pa.saturation / 100)] else []) ++
  (if pa.hue ≠ 0 then [FilterOp.hueRotation (pa.hue / 100 * 0.12)] else []) ++
  (if pa.temperature ≠ 0 then [FilterOp.hueRotation (pa.temperature / 100 * 0.1)] else []) ++
  (if pa.tint ≠ 0 then [FilterOp.hueRotation (pa.tint / 100 * 0.08)] else []) ++
  (if pa.colorBoost ≠ 0 then [FilterOp.saturation (pa.colorBoost / 100 * 0.8)] else []) ++
  (if pa.shadowLift ≠ 0 then [FilterOp.brightness (pa.shadowLift / 300)] else []) ++
  (if pa.highlightGain ≠ 0 then [FilterOp.brightness (pa.highlightGain / 300)] else []) ++
  (if pa.midtoneDetail ≠ 0 then
    let amount := min 1 (|pa.midtoneDetail| / 100) * 0.5
    if pa.midtoneDetail > 0 then
      [FilterOp.convolute
        [0, -amount, 0,
         -amount, 1 + amount * 4, -amount,
         0, -amount, 0]]
    else
      let blur := amount / 2
      [FilterOp.convolute
        [blur, blur, blur,
         blur, 1 - blur * 8, blur,
         blur, blur, blur]]
  else [])

/-- Primary bars block of section 2: one combined gain/offset color matrix. -/
def primaryBarsOps (pb : PrimaryBars) : List FilterOp :=
  let redGain := 1 + (pb.gain.r + pb.gamma.r / 2) / 200
  let greenGain := 1 + (pb.gain.g + pb.gamma.g / 2) / 200
  let blueGain := 1 + (pb.gain.b + pb.gamma.b / 2) / 200
  let redOffset := (pb.lift.r + pb.offset.r) / 200
  let greenOffset := (pb.lift.g + pb.offset.g) / 200
  let blueOffset := (pb.lift.b + pb.offset.b) / 200
  [FilterOp.colorMatrix
    [redGain, 0, 0, 0, redOffset,
     0, greenGain, 0, 0, greenOffset,
     0, 0, blueGain, 0, blueOffset,
     0, 0, 0, 1, 0]]

/-- Advanced adjustments block of section 2. -/
def advancedAdjustmentOps (aa : AdvancedAdjustments) : List FilterOp :=
  (if aa.vibrance ≠ 0 then [FilterOp.saturation (aa.vibrance / 100 * 0.7)] else []) ++
  (if aa.highlights ≠ 0 then [FilterOp.brightness (aa.highlights / 200)] else []) ++
  (if aa.shadows ≠ 0 then [FilterOp.brightness (aa.shadows / 200)] else []) ++
  (if aa.whites ≠ 0 then [FilterOp.brightness (aa.whites / 300)] else []) ++
  (if aa.blacks ≠ 0 then [FilterOp.brightness (aa.blacks / 300)] else []) ++
  (if aa.tint ≠ 0 then [FilterOp.hueRotation (aa.tint / 100 * 0.05)] else [])

/-- HSL block of section 2: the six ranges are collapsed into weighted
averages and emitted as at most three ops. -/
def hslOps (hsl : HSLAdjustments) : List FilterOp :=
  let channels : List (HSLAdjustment × ℚ) :=
    [(hsl.reds, 0.2), (hsl.yellows, 0.15), (hsl.greens, 0.2),
     (hsl.cyans, 0.15), (hsl.blues, 0.2), (hsl.magentas, 0.1)]
  let totalHue : ℚ := channels.foldl (fun t c => t + c.1.hue * c.2) 0
  let totalSat : ℚ := channels.foldl (fun t c => t + c.1.saturation * c.2) 0
  let totalLum : ℚ := channels.foldl (fun t c => t + c.1.luminance * c.2) 0
  let totalWeight : ℚ := channels.foldl (fun t c => t + c.2) 0
  if totalWeight > 0 then
    let avgHue := totalHue / totalWeight
    let avgSat := totalSat / totalWeight
    let avgLum := totalLum / totalWeight
    (if |avgHue| > 0.1 then [FilterOp.hueRotation (avgHue / 100 * 0.15)] else []) ++
    (if |avgSat| > 0.1 then [FilterOp.saturation (avgSat / 100)] else []) ++
    (if |avgLum| > 0.1 then [FilterOp.brightness (avgLum / 200)] else [])
  else []

/-- Advanced curves block of section 2: every curve is reduced to its
average delta from the identity and converted into a nudge. -/
def advancedCurveOps (curves : AdvancedCurves) : List FilterOp :=
  let hueDelta := averageDelta curves.hueVsHue
  let hueSatDelta := averageDelta curves.hueVsSat
  let hueLumDelta := averageDelta curves.hueVsLum
  let lumSatDelta := averageDelta curves.lumVsSat
  let satSatDelta := averageDelta curves.satVsSat
  let satAdjust := hueSatDelta * 1.2 + lumSatDelta * 1.0 + satSatDelta * 1.1
  (if |hueDelta| > 0.01 then [FilterOp.hueRotation (hueDelta * 0.5)] else []) ++
  (if |satAdjust| > 0.01 then [FilterOp.saturation satAdjust] else []) ++
  (if |hueLumDelta| > 0.01 then [FilterOp.brightness (hueLumDelta * 0.5)] else [])

/-- RGB mixer block of section 2: one 3×3 cross matrix. -/
def rgbMixerOps (mixer : RGBMixer) : List FilterOp :=
  [FilterOp.colorMatrix
    [1 + mixer.redToRed / 200, mixer.greenToRed / 200, mixer.blueToRed / 200, 0, 0,
     mixer.redToGreen / 200, 1 + mixer.greenToGreen / 200, mixer.blueToGreen / 200, 0, 0,
     mixer.redToBlue / 200, mixer.greenToBlue / 200, 1 + mixer.blueToBlue / 200, 0, 0,
     0, 0, 0, 1, 0]]

/-- `applyChannelCurve` of the RGB curves block: a per-channel multiplier
from the curve value at the midpoint (1 when fewer than two points). -/
def applyChannelCurve (points : List CurvePoint) : ℚ :=
  if points.length < 2 then 1
  else 1 + (evaluateCurve points 0.5 - 0.5) * 0.2

/-- RGB/master curves block of section 2. -/
def rgbCurveOps (curves : RGBCurves) : List FilterOp :=
  let masterOps :=
    if 2 ≤ curves.master.length then
      let midPoint := evaluateCurve curves.master 0.5
      let quarterPoint := evaluateCurve curves.master 0.25
      let threeQuarterPoint := evaluateCurve curves.master 0.75
      let brightnessAdjust := (midPoint - 0.5) * 0.5
      let contrastAdjust := (threeQuarterPoint - quarterPoint - 0.5) * 0.3
      (if |brightnessAdjust| > 0.01 then [FilterOp.brightness brightnessAdjust] else []) ++
      (if |contrastAdjust| > 0.01 then [FilterOp.contrast contrastAdjust] else [])
    else []
  let redMult := applyChannelCurve curves.red
  let greenMult := applyChannelCurve curves.green
  let blueMult := applyChannelCurve curves.blue
  let channelOps :=
    if |redMult - 1| > 0.01 ∨ |greenMult - 1| > 0.01 ∨ |blueMult - 1| > 0.01 then
      [FilterOp.colorMatrix
        [redMult, 0, 0, 0, 0,
         0, greenMult, 0, 0, 0,
         0, 0, blueMult, 0, 0,
         0, 0, 0, 1, 0]]
    else []
  masterOps ++ channelOps

/-- Section 2 of `applyAllFiltersToImage`: the advanced color grade blocks
in source order. -/
def colorGradeOps (adv : AdvancedColorGrade) : List FilterOp :=
  (adv.colorWheels.elim [] colorWheelOps) ++
  (adv.primaryAdjustments.elim [] primaryAdjustmentOps) ++
  (adv.primaryBars.elim [] primaryBarsOps) ++
  (adv.advancedAdjustments.elim [] advancedAdjustmentOps) ++
  (adv.hslAdjustments.elim [] hslOps) ++
  (adv.advancedCurves.elim [] advancedCurveOps) ++
  (adv.rgbMixer.elim [] rgbMixerOps) ++
  (adv.curves.elim [] rgbCurveOps)

/-- Section 3 of `applyAllFiltersToImage`: the LUT preset recipe, each delta
scaled by `intensity / 100`. -/
def presetFilterOps : Option LutPreset → ℚ → List FilterOp
  | none, _ => []
  | some preset, intensity =>
    let i := intensity / 100
    match preset with
    | .turquoise =>
      [FilterOp.hueRotation (-0.1 * i), FilterOp.saturation (0.2 * i)]
    | .gold =>
      [FilterOp.hueRotation (0.05 * i), FilterOp.saturation (0.15 * i)]
    | .silver =>
      [FilterOp.saturation (-0.3 * i), FilterOp.brightness (0.05 * i)]
    | .cinematic =>
      [FilterOp.contrast (0.15 * i), FilterOp.saturation (0.1 * i),
       FilterOp.hueRotation (-0.03 * i)]
    | .matte =>
      [FilterOp.contrast (-0.2 * i), FilterOp.brightness (0.06 * i),
       FilterOp.saturation (-0.1 * i)]
    | .vibrant =>
      [FilterOp.saturation (0.35 * i), FilterOp.contrast (0.15 * i),
       FilterOp.brightness (0.03 * i)]
    | .noir =>
      [FilterOp.saturation (-1 * i), FilterOp.contrast (0.2 * i),
       FilterOp.brightness (-0.05 * i)]
    | .pastel =>
      [FilterOp.contrast (-0.15 * i), FilterOp.brightness (0.08 * i),
       FilterOp.saturation (-0.05 * i), FilterOp.hueRotation (0.02 * i)]
    | .sunset =>
      [FilterOp.hueRotation (0.08 * i), FilterOp.saturation (0.15 * i),
       FilterOp.brightness (0.04 * i)]

/-- The full ordered op list computed by `applyAllFiltersToImage` from a
layer's grading parameters: manual adjustments, then the advanced color
grade, then the LUT preset (`layer.lutIntensity ?? 75`). -/
def computeFilters (layer : Layer) : List FilterOp :=
  manualFilterOps layer.manualAdjustments ++
  (layer.advancedColorGrade.elim [] colorGradeOps) ++
  presetFilterOps layer.lutPreset (layer.lutIntensity.getD 75)

/-- The text-rendering properties a fabric text object carries
(`FabricText` fields set by `addText` / `updateTextLayer`). -/
structure TextProps where
  text : String
  fontFamily : FontFamily
  fontSize : ℚ
  fontWeight : ℚ
  fontStyle : FontStyle
  color : String
deriving DecidableEq

/-- The options record taken by `addText`. -/
structure TextOptions where
  text : String
  fontFamily : FontFamily
  fontSize : ℚ
  fontWeight : ℚ
  fontStyle : FontStyle
  color : String
  blendMode : BlendMode
deriving DecidableEq

/-- The partial update record taken by `updateTextLayer`
(`Partial<TextStyle> & { text? }`). -/
structure TextUpdates where
  text : Option String := none
  fontFamily : Option FontFamily := none
  fontSize : Option ℚ := none
  fontWeight : Option ℚ := none
  fontStyle : Option FontStyle := none
  color : Option String := none
  blendMode : Option BlendMode := none
deriving DecidableEq

/-- A live fabric.js drawable: the custom `layerId` tag, the fabric type,
the flags toggled by visibility/lock, the applied filter stack, and the
content-carrying fields. -/
structure CanvasObject where
  layerId : Option LayerId := none
  kind : FabricKind
  visible : Bool := true
  selectable : Bool := true
  evented : Bool := true
  filters : List FilterOp := []
  src : Option String := none
  textProps : Option TextProps := none
  blendMode : BlendMode := .normal
deriving DecidableEq

/-- `applyAllFiltersToImage`: reset the drawable's filter stack
(`img.filters = []`) and rebuild it from the layer's grading parameters
alone, then apply (`img.applyFilters()` re-renders; it does not change the
op list). -/
def applyAllFiltersToImage (img : CanvasObject) (layer : Layer) : CanvasObject :=
  { img with filters := computeFilters layer }

/-- One history entry: the layer list copy and the serialized canvas
(`JSON.stringify(canvas.toJSON(serializationProps))`, modelled by the
object list it serializes). -/
structure HistoryState where
  layers : List Layer
  canvasState : List CanvasObject
deriving DecidableEq

/-- The mutable state of `useCanvasEditor`: React state plus the refs
`layerCountRef`, `historyRef`, `historyIndexRef`. -/
structure EditorState where
  layers : List Layer := []
  canvasObjects : List CanvasObject := []
  selectedLayerId : Option LayerId := none
  layerCount : Nat := 0
  history : List HistoryState := []
  historyIndex : Int := -1
  activeLut : Option LutPreset := none
  lutIntensityValue : ℚ := 75
deriving DecidableEq

/-- The fresh editor state produced by `useCanvasEditor` with no initial
layers. -/
def initialEditorState : EditorState := {}

/-- `getMaxLayerSuffix`: the maximum numeric id suffix over the current
layers (the source extracts the suffix with the regex on the id string;
the model reads the stored suffix component). -/
def getMaxLayerSuffix (layers : List Layer) : Nat :=
  layers.foldl (fun maxSuffix l => max maxSuffix l.id.num) 0

/-- The `useEffect` keeping `layerCountRef` ahead of existing layer ids:
raise the counter to the maximal suffix when it is behind. -/
def reseedCounter (s : EditorState) : EditorState :=
  if getMaxLayerSuffix s.layers > s.layerCount then
    { s with layerCount := getMaxLayerSuffix s.layers }
  else s

/-- The (layer list, serialized canvas) pair captured by `saveHistory`. -/
def snap (s : EditorState) : HistoryState :=
  { layers := s.layers, canvasState := s.canvasObjects }

/-- `saveHistory`: truncate the redo tail, push the current snapshot, point
at it, and evict the oldest entry beyond 50. -/
def saveHistory (s : EditorState) : EditorState :=
  let pushed := s.history.take (s.historyIndex + 1).toNat ++ [snap s]
  if pushed.length > 50 then
    { s with history := pushed.tail, historyIndex := (pushed.length : Int) - 2 }
  else
    { s with history := pushed, historyIndex := (pushed.length : Int) - 1 }

/-- `undo`: no-op at position 0 or below; otherwise step back and restore
both halves of the entry now pointed at. -/
def undo (s : EditorState) : EditorState :=
  if s.historyIndex ≤ 0 then s
  else
    let i := s.historyIndex - 1
    match s.history.get? i.toNat with
    | some st =>
      { s with historyIndex := i, layers := st.layers, canvasObjects := st.canvasState }
    | none => { s with historyIndex := i }

/-- `redo`: no-op at the newest entry; otherwise step forward and restore. -/
def redo (s : EditorState) : EditorState :=
  if s.historyIndex ≥ (s.history.length : Int) - 1 then s
  else
    let i := s.historyIndex + 1
    match s.history.get? i.toNat with
    | some st =>
      { s with historyIndex := i, layers := st.layers, canvasObjects := st.canvasState }
    | none => { s with historyIndex := i }

/-- `cleanupOrphanedLayers`: drop layer records with no tagged drawable,
remove tagged drawables with no layer record, and report whether anything
was cleaned. -/
def cleanupOrphanedLayers (s : EditorState) : EditorState × Bool :=
  let canvasObjectIds := s.canvasObjects.filterMap (fun o => o.layerId)
  let orphanedLayers := s.layers.filter (fun l => ¬ l.id ∈ canvasObjectIds)
  let validLayerIds := s.layers.map (fun l => l.id)
  let canvasObjectsWithoutLayers := s.canvasObjects.filter (fun o =>
    match o.layerId with
    | some t => ¬ t ∈ validLayerIds
    | none => False)
  let cleaned := ¬ orphanedLayers.isEmpty = true ∨ ¬ canvasObjectsWithoutLayers.isEmpty = true
  let newObjects := s.canvasObjects.filter (fun o =>
    match o.layerId with
    | some t => t ∈ validLayerIds
    | none => True)
  let newLayers := s.layers.filter (fun l => l.id ∈ canvasObjectIds)
  ({ s with layers := newLayers, canvasObjects := newObjects }, decide cleaned)

/-- Update the first list element satisfying the predicate (models a
`find()` followed by in-place mutation of the found object). -/
def updateFirst (p : α → Bool) (f : α → α) : List α → List α
  | [] => []
  | a :: as => if p a then f a :: as else a :: updateFirst p f as

/-- The state change `addImage` performs after its `saveHistory()` call
(successful image load): allocate the next id, add the tagged fabric image,
select it, and prepend the layer record. -/
def addImageCommit (imageUrl : String) (s : EditorState) : EditorState :=
  let count := s.layerCount + 1
  let lid : LayerId := { kind := LayerKind.image, num := count }
  let obj : CanvasObject := { layerId := some lid, kind := FabricKind.image, src := some imageUrl }
  reseedCounter
    { s with
      layerCount := count
      canvasObjects := s.canvasObjects ++ [obj]
      layers := { id := lid, type := LayerKind.image, name := "Image " ++ toString count,
                  visible := true, locked := false, sourceUrl := some imageUrl } :: s.layers
      selectedLayerId := some lid }

/-- `addImage` (success path): snapshot first, then commit. -/
def addImage (imageUrl : String) (s : EditorState) : EditorState :=
  addImageCommit imageUrl (saveHistory s)

/-- The state change `addVideo` performs after `saveHistory()`: the video is
loaded as a fabric *image* placeholder tagged `video-{n}`. -/
def addVideoCommit (videoUrl : String) (s : EditorState) : EditorState :=
  let count := s.layerCount + 1
  let lid : LayerId := { kind := LayerKind.video, num := count }
  let obj : CanvasObject := { layerId := some lid, kind := FabricKind.image, src := some videoUrl }
  reseedCounter
    { s with
      layerCount := count
      canvasObjects := s.canvasObjects ++ [obj]
      layers := { id := lid, type := LayerKind.video, name := "Video " ++ toString count,
                  visible := true, locked := false, sourceUrl := some videoUrl } :: s.layers
      selectedLayerId := some lid }

/-- `addVideo` (success path): snapshot first, then commit. -/
def addVideo (videoUrl : String) (s : EditorState) : EditorState :=
  addVideoCommit videoUrl (saveHistory s)

/-- The state change `addText` performs after `saveHistory()`. -/
def addTextCommit (opts : TextOptions) (s : EditorState) : EditorState :=
  let count := s.layerCount + 1
  let lid : LayerId := { kind := LayerKind.text, num := count }
  let obj : CanvasObject :=
    { layerId := some lid, kind := FabricKind.text,
      textProps := some { text := opts.text, fontFamily := opts.fontFamily,
                          fontSize := opts.fontSize, fontWeight := opts.fontWeight,
                          fontStyle := opts.fontStyle, color := opts.color },
      blendMode := opts.blendMode }
  reseedCounter
    { s with
      layerCount := count
      canvasObjects := s.canvasObjects ++ [obj]
      layers := { id := lid, type := LayerKind.text, name := "Text " ++ toString count,
                  visible := true, locked := false } :: s.layers
      selectedLayerId := some lid }

/-- `addText`: snapshot first, then commit. -/
def addText (opts : TextOptions) (s : EditorState) : EditorState :=
  addTextCommit opts (saveHistory s)

/-- The state change `deleteLayer` performs after `saveHistory()`: remove
every drawable tagged with the id, always drop the layer record, clear a
matching selection, and run the scheduled orphan sweep. -/
def deleteLayerCommit (lid : LayerId) (s : EditorState) : EditorState :=
  let afterRemove :=
    { s with
      canvasObjects := s.canvasObjects.filter (fun o => ¬ o.layerId = some lid)
      layers := s.layers.filter (fun l => ¬ l.id = lid)
      selectedLayerId := if s.selectedLayerId = some lid then none else s.selectedLayerId }
  reseedCounter (cleanupOrphanedLayers afterRemove).1

/-- `deleteLayer`: snapshot first, then commit. -/
def deleteLayer (lid : LayerId) (s : EditorState) : EditorState :=
  deleteLayerCommit lid (saveHistory s)

/-- Apply a `Partial<TextStyle>` update to a fabric text object's
properties. -/
def applyTextUpdates (upd : TextUpdates) (o : CanvasObject) : CanvasObject :=
  let tp := o.textProps.getD
    { text := "", fontFamily := FontFamily.inter, fontSize := 24,
      fontWeight := 400, fontStyle := FontStyle.normal, color := "#000000" }
  { o with
    textProps := some
      { text := upd.text.getD tp.text
        fontFamily := upd.fontFamily.getD tp.fontFamily
        fontSize := upd.fontSize.getD tp.fontSize
        fontWeight := upd.fontWeight.getD tp.fontWeight
        fontStyle := upd.fontStyle.getD tp.fontStyle
        color := upd.color.getD tp.color }
    blendMode := upd.blendMode.getD o.blendMode }

/-- `updateTextLayer`: no-op when the id does not resolve to a live text
drawable; otherwise snapshot, then mutate the found drawable. -/
def updateTextLayer (lid : LayerId) (upd : TextUpdates) (s : EditorState) : EditorState :=
  match s.canvasObjects.find? (fun o => o.layerId = some lid) with
  | none => s
  | some obj =>
    if obj.kind = FabricKind.text then
      let s1 := saveHistory s
      { s1 with
        canvasObjects :=
          updateFirst (fun o => o.layerId = some lid) (applyTextUpdates upd) s1.canvasObjects }
    else s

/-- `applyColorGrade` (no `saveHistory()` call in the source): update the
targeted layer record — or every *image* layer when the id is omitted —
with the preset and intensity, and re-derive the filter stack of the
matching fabric image object(s). -/
def applyColorGrade (lut : LutPreset) (intensity : ℚ) (layerId : Option LayerId)
    (s : EditorState) : EditorState :=
  match layerId with
  | some lid =>
    let newLayers := s.layers.map (fun l =>
      if l.id = lid then { l with lutPreset := some lut, lutIntensity := some intensity } else l)
    let newObjects :=
      match s.layers.find? (fun l => l.id = lid) with
      | some l =>
        let updatedLayer := { l with lutPreset := some lut, lutIntensity := some intensity }
        updateFirst (fun o => o.layerId = some lid)
          (fun o => if o.kind = FabricKind.image then
              { o with filters := computeFilters updatedLayer } else o)
          s.canvasObjects
      | none => s.canvasObjects
    { s with layers := newLayers, canvasObjects := newObjects,
             activeLut := some lut, lutIntensityValue := intensity }
  | none =>
    let newLayers := s.layers.map (fun l =>
      if l.type = LayerKind.image then
        { l with lutPreset := some lut, lutIntensity := some intensity } else l)
    let newObjects := s.layers.foldl (fun objs l =>
      if l.type = LayerKind.image then
        let updatedLayer := { l with lutPreset := some lut, lutIntensity := some intensity }
        updateFirst (fun o => o.layerId = some l.id)
          (fun o => if o.kind = FabricKind.image then
              { o with filters := computeFilters updatedLayer } else o)
          objs
      else objs) s.canvasObjects
    { s with layers := newLayers, canvasObjects := newObjects,
             activeLut := some lut, lutIntensityValue := intensity }

/-- The per-layer reset of `resetColorGrade`: clear the preset, restore
intensity 75, and drop both adjustment blocks. -/
def resetLayer (l : Layer) : Layer :=
  { l with lutPreset := none, lutIntensity := some 75,
           manualAdjustments := none, advancedColorGrade := none }

/-- `resetColorGrade` (no `saveHistory()` call in the source). -/
def resetColorGrade (layerId : Option LayerId) (s : EditorState) : EditorState :=
  match layerId with
  | some lid =>
    let newLayers := s.layers.map (fun l => if l.id = lid then resetLayer l else l)
    let newObjects :=
      match s.layers.find? (fun l => l.id = lid) with
      | some l =>
        updateFirst (fun o => o.layerId = some lid)
          (fun o => if o.kind = FabricKind.image then
              { o with filters := computeFilters (resetLayer l) } else o)
          s.canvasObjects
      | none => s.canvasObjects
    { s with layers := newLayers, canvasObjects := newObjects }
  | none =>
    let newLayers := s.layers.map (fun l =>
      if l.type = LayerKind.image then resetLayer l else l)
    let newObjects := s.layers.foldl (fun objs l =>
      if l.type = LayerKind.image then
        updateFirst (fun o => o.layerId = some l.id)
          (fun o => if o.kind = FabricKind.image then
              { o with filters := computeFilters (resetLayer l) } else o)
          objs
      else objs) s.canvasObjects
    { s with layers := newLayers, canvasObjects := newObjects,
             activeLut := none, lutIntensityValue := 75 }

/-- The four manual-adjustment sliders. -/
inductive ManualField
  | exposure | contrast | saturation | temperature
deriving DecidableEq

/-- Replace one slider value inside a `ManualAdjustments` record
(the computed-key spread of the source). -/
def setManualField : ManualField → ℚ → ManualAdjustments → ManualAdjustments
  | ManualField.exposure, v, a => { a with exposure := v }
  | ManualField.contrast, v, a => { a with contrast := v }
  | ManualField.saturation, v, a => { a with saturation := v }
  | ManualField.temperature, v, a => { a with temperature := v }

/-- The merge `applyManualAdjustment` performs on one layer: default the
missing block to all-zero sliders, then replace the one adjusted slider. -/
def updateManualLayer (fld : ManualField) (v : ℚ) (l : Layer) : Layer :=
  let adjustments := l.manualAdjustments.getD
    { exposure := 0, contrast := 0, saturation := 0, temperature := 0 }
  { l with manualAdjustments := some (setManualField fld v adjustments) }

/-- `applyManualAdjustment` (no `saveHistory()` call in the source). -/
def applyManualAdjustment (fld : ManualField) (v : ℚ) (layerId : Option LayerId)
    (s : EditorState) : EditorState :=
  match layerId with
  | some lid =>
    let newLayers := s.layers.map (fun l => if l.id = lid then updateManualLayer fld v l else l)
    let newObjects :=
      match s.layers.find? (fun l => l.id = lid) with
      | some l =>
        updateFirst (fun o => o.layerId = some lid)
          (fun o => if o.kind = FabricKind.image then
              { o with filters := computeFilters (updateManualLayer fld v l) } else o)
          s.canvasObjects
      | none => s.canvasObjects
    { s with layers := newLayers, canvasObjects := newObjects }
  | none =>
    let newLayers := s.layers.map (fun l =>
      if l.type = LayerKind.image then updateManualLayer fld v l else l)
    let newObjects := s.layers.foldl (fun objs l =>
      if l.type = LayerKind.image then
        updateFirst (fun o => o.layerId = some l.id)
          (fun o => if o.kind = FabricKind.image then
              { o with filters := computeFilters (updateManualLayer fld v l) } else o)
          objs
      else objs) s.canvasObjects
    { s with layers := newLayers, canvasObjects := newObjects }

/-- The four color wheels. -/
inductive WheelField
  | lift | gamma | gain | offset
deriving DecidableEq

/-- Replace one wheel inside a `ColorWheel` record. -/
def setWheelField : WheelField → RGB → ColorWheel → ColorWheel
  | WheelField.lift, v, cw => { cw with lift := v }
  | WheelField.gamma, v, cw => { cw with gamma := v }
  | WheelField.gain, v, cw => { cw with gain := v }
  | WheelField.offset, v, cw => { cw with offset := v }

/-- The merge `applyColorWheel` performs on one layer: default the missing
blocks, then replace the one adjusted wheel inside `colorWheels`. -/
def updateWheelLayer (w : WheelField) (v : RGB) (l : Layer) : Layer :=
  let adv := l.advancedColorGrade.getD {}
  let colorWheels := adv.colorWheels.getD
    { lift := { r := 0, g := 0, b := 0 }, gamma := { r := 0, g := 0, b := 0 },
      gain := { r := 0, g := 0, b := 0 }, offset := { r := 0, g := 0, b := 0 } }
  { l with advancedColorGrade := some ({ adv with colorWheels := some (setWheelField w v colorWheels) }) }

/-- `applyColorWheel` (no `saveHistory()` call in the source): merge the
wheel into the layer record(s), then walk the processed objects; note the
source re-derives each object's filters from the *pre-update* layer record
unless the object is the explicitly targeted one. -/
def applyColorWheel (w : WheelField) (v : RGB) (layerId : Option LayerId)
    (s : EditorState) : EditorState :=
  let newLayers :=
    match layerId with
    | some lid => s.layers.map (fun l => if l.id = lid then updateWheelLayer w v l else l)
    | none => s.layers.map (fun l =>
        if l.type = LayerKind.image then updateWheelLayer w v l else l)
  let newObjects := s.canvasObjects.map (fun o =>
    let processed : Bool :=
      match layerId with
      | some lid => decide (o.layerId = some lid)
      | none => true
    if processed ∧ o.kind = FabricKind.image then
      match o.layerId with
      | some tag =>
        match s.layers.find? (fun l => l.id = tag) with
        | some l =>
          let updatedLayer := if layerId = some tag then updateWheelLayer w v l else l
          { o with filters := computeFilters updatedLayer }
        | none => o
      | none => o
    else o)
  { s with layers := newLayers, canvasObjects := newObjects }

/-- `toggleLayerVisibility` (no `saveHistory()` call in the source): no-op
when no drawable carries the id; otherwise flip the drawable's and the
layer record's flags. -/
def toggleLayerVisibility (lid : LayerId) (s : EditorState) : EditorState :=
  match s.canvasObjects.find? (fun o => o.layerId = some lid) with
  | none => s
  | some _ =>
    { s with
      canvasObjects := updateFirst (fun o => o.layerId = some lid)
        (fun o => { o with visible := ¬ o.visible }) s.canvasObjects
      layers := s.layers.map (fun l => if l.id = lid then { l with visible := ¬ l.visible } else l) }

/-- `toggleLayerLock` (no `saveHistory()` call in the source). -/
def toggleLayerLock (lid : LayerId) (s : EditorState) : EditorState :=
  match s.canvasObjects.find? (fun o => o.layerId = some lid) with
  | none => s
  | some _ =>
    { s with
      canvasObjects := updateFirst (fun o => o.layerId = some lid)
        (fun o => { o with selectable := ¬ o.selectable, evented := ¬ o.evented }) s.canvasObjects
      layers := s.layers.map (fun l => if l.id = lid then { l with locked := ¬ l.locked } else l) }

/-- The history-snapshotting mutating operations used for the round-trip
and id-churn sequences. -/
inductive EditorOp
  | addImage (url : String)
  | addVideo (url : String)
  | addText (opts : TextOptions)
  | deleteLayer (lid : LayerId)
deriving DecidableEq

/-- Dispatch one editor operation. -/
def applyOp : EditorOp → EditorState → EditorState
  | EditorOp.addImage url, s => addImage url s
  | EditorOp.addVideo url, s => addVideo url s
  | EditorOp.addText opts, s => addText opts s
  | EditorOp.deleteLayer lid, s => deleteLayer lid s

/-- The post-`saveHistory` part of `applyOp`. -/
def applyOpCommit : EditorOp → EditorState → EditorState
  | EditorOp.addImage url, s => addImageCommit url s
  | EditorOp.addVideo url, s => addVideoCommit url s
  | EditorOp.addText opts, s => addTextCommit opts s
  | EditorOp.deleteLayer lid, s => deleteLayerCommit lid s

/-- Run a sequence of editor operations. -/
def runOps (ops : List EditorOp) (s : EditorState) : EditorState :=
  ops.foldl (fun t op => applyOp op t) s

/-- The states in which the successive operations of a sequence start
(the states captured by their `saveHistory()` calls). -/
def prefixStates : List EditorOp → EditorState → List EditorState
  | [], _ => []
  | op :: ops, s => s :: prefixStates ops (applyOp op s)

/-- Loading a slide's layer list into the editor (the `initialLayers` sync
effect followed by the counter-reseeding effect). -/
def loadLayers (layers : List Layer) (s : EditorState) : EditorState :=
  reseedCounter { s with layers := layers }

/-- A `CanvasSize` record of `types/carousel.ts`. -/
structure CanvasSize where
  width : ℚ
  height : ℚ
  name : String
deriving DecidableEq

/-- The `CAROUSEL_SIZES` constant. -/
def CAROUSEL_SIZES : List CanvasSize :=
  [{ width := 1080, height := 1350, name := "Instagram Portrait (4:5)" },
   { width := 1080, height := 1080, name := "Instagram Square (1:1)" },
   { width := 1080, height := 1920, name := "Instagram Story (9:16)" },
   { width := 1200, height := 628, name := "LinkedIn/Facebook (1.91:1)" },
   { width := 1600, height := 900, name := "Twitter/X (16:9)" }]

/-- A `CarouselSlide` record. -/
structure CarouselSlide where
  id : String
  name : String
  canvasSize : CanvasSize
  layers : List Layer
  createdAt : ℚ
  updatedAt : ℚ
deriving DecidableEq

/-- A `CarouselProject` record. -/
structure CarouselProject where
  id : String
  name : String
  slides : List CarouselSlide
  createdAt : ℚ
  updatedAt : ℚ
deriving DecidableEq

/-- `createDefaultSlide` of `useCarouselProject`: a fresh empty slide; the
canvas size defaults to `CAROUSEL_SIZES[0]`.  The non-deterministic
`generateId()` and `Date.now()` are passed in as `freshId` and `now`. -/
def createDefaultSlide (freshId : String) (now : ℚ)
    (canvasSize : CanvasSize :=
      { width := 1080, height := 1350, name := "Instagram Portrait (4:5)" }) :
    CarouselSlide :=
  { id := freshId, name := "Slide " ++ toString now, canvasSize := canvasSize,
    layers := [], createdAt := now, updatedAt := now }

/-- The state of `useCarouselProject`: the project and the current-slide
pointer. -/
structure ProjectStore where
  project : CarouselProject
  currentSlideIndex : Nat
deriving DecidableEq

/-- `addSlide`: append a fresh slide (requested size, else the first
slide's size, else the default) and point at it. -/
def addSlide (canvasSize : Option CanvasSize) (freshId : String) (now : ℚ)
    (st : ProjectStore) : ProjectStore :=
  let prev := st.project
  let inherited :=
    match prev.slides.head? with
    | some s => s.canvasSize
    | none => { width := 1080, height := 1350, name := "Instagram Portrait (4:5)" }
  let newSlide := createDefaultSlide freshId now (canvasSize.getD inherited)
  let newSlides := prev.slides ++ [newSlide]
  { project := { prev with slides := newSlides, updatedAt := now },
    currentSlideIndex := newSlides.length - 1 }

/-- `deleteSlide`: filter the slide out; when nothing remains, synthesize a
fresh default slide instead of leaving zero; otherwise shift the current
index toward 0 when the deleted position was at or before it. -/
def deleteSlide (slideId : String) (freshId : String) (now : ℚ)
    (st : ProjectStore) : ProjectStore :=
  let prev := st.project
  let newSlides := prev.slides.filter (fun s => ¬ s.id = slideId)
  if newSlides.isEmpty then
    { project := { prev with slides := [createDefaultSlide freshId now], updatedAt := now },
      currentSlideIndex := 0 }
  else
    let deletedIndex : Int :=
      ((prev.slides.findIdx? (fun s => s.id = slideId)).map Int.ofNat).getD (-1)
    let newIndex :=
      if deletedIndex ≤ (st.currentSlideIndex : Int) then
        (max 0 ((st.currentSlideIndex : Int) - 1)).toNat
      else st.currentSlideIndex
    { project := { prev with slides := newSlides, updatedAt := now },
      currentSlideIndex := newIndex }

/-- A `Partial<CarouselSlide>` update record. -/
structure SlideUpdates where
  id : Option String := none
  name : Option String := none
  canvasSize : Option CanvasSize := none
  layers : Option (List Layer) := none
  createdAt : Option ℚ := none
deriving DecidableEq

/-- The spread `{ ...slide, ...updates, updatedAt: Date.now() }`. -/
def mergeSlide (u : SlideUpdates) (now : ℚ) (s : CarouselSlide) : CarouselSlide :=
  { id := u.id.getD s.id, name := u.name.getD s.name,
    canvasSize := u.canvasSize.getD s.canvasSize, layers := u.layers.getD s.layers,
    createdAt := u.createdAt.getD s.createdAt, updatedAt := now }

/-- `updateSlide`: shallow-merge into the matching slide, always bumping
`updatedAt`. -/
def updateSlide (slideId : String) (u : SlideUpdates) (now : ℚ)
    (st : ProjectStore) : ProjectStore :=
  { st with project := { st.project with
      slides := st.project.slides.map (fun s => if s.id = slideId then mergeSlide u now s else s),
      updatedAt := now } }

/-- `duplicateSlide`: no-op when the id is unknown; otherwise insert a
copy (new slide id, layer list preserved) right after the source and point
at it. -/
def duplicateSlide (slideId : String) (freshId : String) (now : ℚ)
    (st : ProjectStore) : ProjectStore :=
  let prev := st.project
  match prev.slides.findIdx? (fun s => s.id = slideId) with
  | none => st
  | some slideIndex =>
    match prev.slides.get? slideIndex with
    | none => st
    | some slideToDuplicate =>
      let newSlide := { slideToDuplicate with
        id := freshId, name := slideToDuplicate.name ++ " (Copy)",
        createdAt := now, updatedAt := now }
      let newSlides :=
        prev.slides.take (slideIndex + 1) ++ [newSlide] ++ prev.slides.drop (slideIndex + 1)
      { project := { prev with slides := newSlides, updatedAt := now },
        currentSlideIndex := slideIndex + 1 }

/-- The slide-store operations. -/
inductive SlideOp
  | addSlide (canvasSize : Option CanvasSize) (freshId : String) (now : ℚ)
  | deleteSlide (slideId : String) (freshId : String) (now : ℚ)
  | updateSlide (slideId : String) (u : SlideUpdates) (now : ℚ)
  | duplicateSlide (slideId : String) (freshId : String) (now : ℚ)

/-- Dispatch one slide-store operation. -/
def applySlideOp : SlideOp → ProjectStore → ProjectStore
  | SlideOp.addSlide canvasSize freshId now, st => addSlide canvasSize freshId now st
  | SlideOp.deleteSlide slideId freshId now, st => deleteSlide slideId freshId now st
  | SlideOp.updateSlide slideId u now, st => updateSlide slideId u now st
  | SlideOp.duplicateSlide slideId freshId now, st => duplicateSlide slideId freshId now st

/-- A sample slide whose canvas size is *not* the default size. -/
def wideSlide : CarouselSlide :=
  { id := "slide-w", name := "Wide", canvasSize := { width := 1600, height := 900, name := "Twitter/X (16:9)" },
    layers := [], createdAt := 0, updatedAt := 0 }

/-- A one-slide project store around `wideSlide`. -/
def wideStore : ProjectStore :=
  { project := { id := "p1", name := "Untitled Carousel", slides := [wideSlide],
                 createdAt := 0, updatedAt := 0 },
    currentSlideIndex := 0 }

/-- C9: every slide-store operation (addSlide, deleteSlide, updateSlide,
duplicateSlide) preserves non-emptiness of the project's slide list, and
deleting the only remaining slide leaves exactly the one fresh empty
default slide, never zero slides. -/
theorem C9_slide_list_nonempty :
    (∀ op st, st.project.slides ≠ [] → (applySlideOp op st).project.slides ≠ []) ∧
    (∀ (st : ProjectStore) (s : CarouselSlide) (freshId : String) (now : ℚ),
      st.project.slides = [s] →
      (deleteSlide s.id freshId now st).project.slides = [createDefaultSlide freshId now] ∧
      (createDefaultSlide freshId now).layers = []) := by
  constructor
  · intro op st h
    cases op with
    | addSlide cs fid now =>
      simp [applySlideOp, addSlide]
    | deleteSlide sid fid now =>
      simp only [applySlideOp, deleteSlide]
      split
      · simp
      · next hne =>
        simp only [List.isEmpty_iff] at hne
        simpa using hne
    | updateSlide sid u now =>
      simp only [applySlideOp, updateSlide]
      simpa [List.map_eq_nil_iff] using h
    | duplicateSlide sid fid now =>
      simp only [applySlideOp, duplicateSlide]
      cases hidx : st.project.slides.findIdx? (fun s => s.id = sid) with
      | none => simpa using h
      | some i =>
        cases hget : st.project.slides[i]? with
        | none => simpa [hget] using h
        | some sl => simp [hget]
  · intro st s freshId now hs
    refine ⟨?_, rfl⟩
    simp [deleteSlide, hs]

/-- Closed witness for C9 at concrete inputs. -/
theorem C9_slide_list_nonempty_witness :
    (applySlideOp (SlideOp.addSlide none "fresh-1" 1) wideStore).project.slides ≠ [] ∧
    (deleteSlide wideSlide.id "fresh-2" 2 wideStore).project.slides =
      [createDefaultSlide "fresh-2" 2] :=
  ⟨C9_slide_list_nonempty.1 (SlideOp.addSlide none "fresh-1" 1) wideStore (by decide),
   (C9_slide_list_nonempty.2 wideStore wideSlide "fresh-2" 2 rfl).1⟩

/-- C10: the replacement slide synthesized when the last remaining slide is
deleted always has the default 1080×1350 Instagram-portrait canvas size and
an empty layer list, regardless of the canvas size of the deleted slide. -/
theorem C10_replacement_slide_default (st : ProjectStore) (s : CarouselSlide)
    (freshId : String) (now : ℚ) (h : st.project.slides = [s]) :
    (deleteSlide s.id freshId now st).project.slides.map
      (fun sl => (sl.canvasSize, sl.layers)) =
      [({ width := 1080, height := 1350, name := "Instagram Portrait (4:5)" }, ([] : List Layer))] := by
  simp [deleteSlide, h, createDefaultSlide]

/-- Closed witness for C10: the deleted slide is 1600×900, the replacement
is nevertheless 1080×1350 and empty. -/
theorem C10_replacement_slide_default_witness :
    (deleteSlide wideSlide.id "fresh-3" 3 wideStore).project.slides.map
      (fun sl => (sl.canvasSize, sl.layers)) =
      [({ width := 1080, height := 1350, name := "Instagram Portrait (4:5)" }, ([] : List Layer))] :=
  C10_replacement_slide_default wideStore wideSlide "fresh-3" 3 rfl

/-- C3: the grading pipeline is deterministic and accumulation-free: the op
list installed by `applyAllFiltersToImage` is the pure function
`computeFilters` of the layer's parameters alone, it is the same for any
two prior filter states of the drawable, and re-running the computation on
identical input changes nothing. -/
theorem C3_grading_deterministic :
    (∀ (img : CanvasObject) (layer : Layer),
      (applyAllFiltersToImage img layer).filters = computeFilters layer) ∧
    (∀ (img1 img2 : CanvasObject) (layer : Layer),
      (applyAllFiltersToImage img1 layer).filters =
        (applyAllFiltersToImage img2 layer).filters) ∧
    (∀ (img : CanvasObject) (layer : Layer),
      applyAllFiltersToImage (applyAllFiltersToImage img layer) layer =
        applyAllFiltersToImage img layer) := by
  refine ⟨fun img layer => rfl, fun img1 img2 layer => rfl, fun img layer => rfl⟩

/-- Scale the scalar parameter of a primitive op: used to state that the
preset recipes are linear in the intensity. -/
def scaleOp (k : ℚ) : FilterOp → FilterOp
  | FilterOp.brightness b => FilterOp.brightness (k * b)
  | FilterOp.contrast c => FilterOp.contrast (k * c)
  | FilterOp.saturation s => FilterOp.saturation (k * s)
  | FilterOp.hueRotation r => FilterOp.hueRotation (k * r)
  | op => op

/-- The scalar delta carried by a primitive op. -/
def opDelta : FilterOp → ℚ
  | FilterOp.brightness b => b
  | FilterOp.contrast c => c
  | FilterOp.saturation s => s
  | FilterOp.hueRotation r => r
  | _ => 0

/-- C4: the op list is ordered manual adjustments, then advanced-grade ops,
then the preset recipe; each manual op is emitted exactly when its slider
is non-zero (exposure as brightness, contrast, saturation, temperature as
hue-rotation); the preset recipe scales linearly with `intensity / 100`
and all its deltas are zero at intensity 0; no preset contributes when none
is set. -/
theorem C4_op_list_order_and_scaling :
    (∀ layer : Layer, computeFilters layer =
      manualFilterOps layer.manualAdjustments ++
      (layer.advancedColorGrade.elim [] colorGradeOps) ++
      presetFilterOps layer.lutPreset (layer.lutIntensity.getD 75)) ∧
    (∀ adj : ManualAdjustments,
      (adj.exposure ≠ 0 →
        FilterOp.brightness (adj.exposure / 100) ∈ manualFilterOps (some adj)) ∧
      (adj.exposure = 0 → ∀ b, FilterOp.brightness b ∉ manualFilterOps (some adj)) ∧
      (adj.contrast ≠ 0 →
        FilterOp.contrast (adj.contrast / 100) ∈ manualFilterOps (some adj)) ∧
      (adj.contrast = 0 → ∀ c, FilterOp.contrast c ∉ manualFilterOps (some adj)) ∧
      (adj.saturation ≠ 0 →
        FilterOp.saturation (adj.saturation / 100) ∈ manualFilterOps (some adj)) ∧
      (adj.saturation = 0 → ∀ v, FilterOp.saturation v ∉ manualFilterOps (some adj)) ∧
      (adj.temperature ≠ 0 →
        FilterOp.hueRotation (adj.temperature / 100 * 0.1) ∈ manualFilterOps (some adj)) ∧
      (adj.temperature = 0 → ∀ r, FilterOp.hueRotation r ∉ manualFilterOps (some adj))) ∧
    (∀ (p : LutPreset) (intensity : ℚ),
      presetFilterOps (some p) intensity =
        (presetFilterOps (some p) 100).map (scaleOp (intensity / 100))) ∧
    (∀ p : LutPreset, ∀ op ∈ presetFilterOps (some p) 0, opDelta op = 0) ∧
    (∀ intensity : ℚ, presetFilterOps none intensity = []) := by
  refine ⟨fun layer => rfl, ?_, ?_, ?_, fun intensity => rfl⟩
  · intro adj
    refine ⟨?_, ?_, ?_, ?_, ?_, ?_, ?_, ?_⟩ <;> intro h
    · simp [manualFilterOps, h]
    · intro b
      simp [manualFilterOps, h]
    · simp [manualFilterOps, h]
    · intro c
      simp [manualFilterOps, h]
    · simp [manualFilterOps, h]
    · intro v
      simp [manualFilterOps, h]
    · simp [manualFilterOps, h]
    · intro r
      simp [manualFilterOps, h]
  · intro p intensity
    cases p <;> simp [presetFilterOps, scaleOp] <;> ring_nf <;> simp
  · intro p op h
    cases p <;> simp [presetFilterOps] at h <;>
      (rcases h with rfl | rfl | rfl | rfl) <;>
      simp [opDelta]

/-- Closed witness for C4: a concrete adjustment record (exposure 10, the
rest zero except saturation) and the noir preset at intensity 50. -/
theorem C4_op_list_order_and_scaling_witness :
    FilterOp.brightness (10 / 100) ∈
      manualFilterOps (some { exposure := 10, contrast := 0, saturation := -5, temperature := 0 }) ∧
    FilterOp.contrast (3 / 10) ∉
      manualFilterOps (some { exposure := 10, contrast := 0, saturation := -5, temperature := 0 }) ∧
    presetFilterOps (some LutPreset.noir) 50 =
      (presetFilterOps (some LutPreset.noir) 100).map (scaleOp (50 / 100)) :=
  ⟨(C4_op_list_order_and_scaling.2.1 _).1 (by norm_num),
   (C4_op_list_order_and_scaling.2.1 _).2.2.2.1 rfl (3 / 10),
   C4_op_list_order_and_scaling.2.2.1 LutPreset.noir 50⟩

/-- The cleaned state of one orphan sweep, written out. -/
theorem cleanup_state_eq (s : EditorState) :
    (cleanupOrphanedLayers s).1 =
      { s with
        layers := s.layers.filter
          (fun l => l.id ∈ s.canvasObjects.filterMap (fun o => o.layerId))
        canvasObjects := s.canvasObjects.filter (fun o =>
          match o.layerId with
          | some t => t ∈ s.layers.map (fun l => l.id)
          | none => True) } := rfl

/-- Every layer surviving one sweep still has a tagged drawable after the
sweep. -/
theorem cleanup_layers_covered (s : EditorState) :
    ∀ l ∈ (cleanupOrphanedLayers s).1.layers,
      l.id ∈ (cleanupOrphanedLayers s).1.canvasObjects.filterMap (fun o => o.layerId) := by
  intro l hl
  rw [cleanup_state_eq] at hl ⊢
  simp only [List.mem_filter, decide_eq_true_eq] at hl
  obtain ⟨hmem, hid⟩ := hl
  simp only [List.mem_filterMap] at hid ⊢
  obtain ⟨o, ho, htag⟩ := hid
  refine ⟨o, ?_, htag⟩
  simp only [List.mem_filter]
  refine ⟨ho, ?_⟩
  rw [htag]
  simp only [decide_eq_true_eq, List.mem_map]
  exact ⟨l, hmem, rfl⟩

/-- Every drawable surviving one sweep still has a layer record after the
sweep. -/
theorem cleanup_objects_covered (s : EditorState) :
    ∀ o ∈ (cleanupOrphanedLayers s).1.canvasObjects,
      (match o.layerId with
       | some t => t ∈ (cleanupOrphanedLayers s).1.layers.map (fun l => l.id)
       | none => True) := by
  intro o ho
  rw [cleanup_state_eq] at ho ⊢
  simp only [List.mem_filter] at ho
  obtain ⟨hmem, hvalid⟩ := ho
  cases htag : o.layerId with
  | none => trivial
  | some t =>
    rw [htag] at hvalid
    simp only [decide_eq_true_eq, List.mem_map] at hvalid
    obtain ⟨l, hl, hid⟩ := hvalid
    simp only [List.mem_map]
    refine ⟨l, ?_, hid⟩
    simp only [List.mem_filter, decide_eq_true_eq]
    refine ⟨hl, ?_⟩
    simp only [List.mem_filterMap]
    exact ⟨o, hmem, by rw [htag, hid]⟩

/-- C6: the orphan sweep is idempotent — a second `cleanupOrphanedLayers`
right after one changes nothing — it is a total function (never throws),
its flag is true exactly when the sweep changed the layer list or the
canvas objects, and the second sweep reports no change. -/
theorem C6_reconcile_idempotent (s : EditorState) :
    (cleanupOrphanedLayers (cleanupOrphanedLayers s).1).1 = (cleanupOrphanedLayers s).1 ∧
    ((cleanupOrphanedLayers s).2 = true ↔
      ¬ ((cleanupOrphanedLayers s).1.layers = s.layers ∧
         (cleanupOrphanedLayers s).1.canvasObjects = s.canvasObjects)) ∧
    (cleanupOrphanedLayers (cleanupOrphanedLayers s).1).2 = false := by
  have hlay := cleanup_layers_covered s
  have hobj := cleanup_objects_covered s
  refine ⟨?_, ?_, ?_⟩
  · rw [cleanup_state_eq ((cleanupOrphanedLayers s).1)]
    have h1 : ((cleanupOrphanedLayers s).1.layers.filter
        (fun l => l.id ∈ (cleanupOrphanedLayers s).1.canvasObjects.filterMap
          (fun o => o.layerId))) = (cleanupOrphanedLayers s).1.layers := by
      rw [List.filter_eq_self]
      intro l hl
      simpa using hlay l hl
    have h2 : ((cleanupOrphanedLayers s).1.canvasObjects.filter (fun o =>
        match o.layerId with
        | some t => t ∈ (cleanupOrphanedLayers s).1.layers.map (fun l => l.id)
        | none => True)) = (cleanupOrphanedLayers s).1.canvasObjects := by
      rw [List.filter_eq_self]
      intro o ho
      have := hobj o ho
      cases htag : o.layerId with
      | none => simp [htag]
      | some t => rw [htag] at this; simpa [htag] using this
    rw [h1, h2]
  · show (decide _) = true ↔ _
    rw [decide_eq_true_eq, cleanup_state_eq]
    simp only [not_and_or]
    constructor
    · rintro (h | h)
      · left
        intro heq
        rw [List.filter_eq_self] at heq
        rw [List.isEmpty_iff, List.filter_eq_nil_iff] at h
        apply h
        intro l hl
        simpa using heq l hl
      · right
        intro heq
        rw [List.filter_eq_self] at heq
        rw [List.isEmpty_iff, List.filter_eq_nil_iff] at h
        apply h
        intro o ho
        have := heq o ho
        cases htag : o.layerId with
        | none => simp [htag]
        | some t => rw [htag] at this; simpa [htag] using this
    · rintro (h | h)
      · left
        rw [List.isEmpty_iff, List.filter_eq_nil_iff]
        intro hforall
        apply h
        rw [List.filter_eq_self]
        intro l hl
        have := hforall l hl
        simpa using this
      · right
        rw [List.isEmpty_iff, List.filter_eq_nil_iff]
        intro hforall
        apply h
        rw [List.filter_eq_self]
        intro o ho
        have := hforall o ho
        cases htag : o.layerId with
        | none => simp [htag]
        | some t =>
          rw [htag] at this
          simp only [decide_eq_true_eq, not_not] at this
          simp [htag, this]
  · show (decide _) = false
    rw [decide_eq_false_iff_not]
    simp only [not_or, not_not]
    constructor
    · rw [List.isEmpty_iff, List.filter_eq_nil_iff]
      intro l hl
      simpa using hlay l hl
    · rw [List.isEmpty_iff, List.filter_eq_nil_iff]
      intro o ho
      have := hobj o ho
      cases htag : o.layerId with
      | none => simp [htag]
      | some t => rw [htag] at this; simpa [htag] using this

/-- Closed witness for C6 at a state with one orphaned layer record and
one untagged drawable. -/
theorem C6_reconcile_idempotent_witness :
    (cleanupOrphanedLayers
      (cleanupOrphanedLayers
        { layers := [{ id := { kind := LayerKind.image, num := 1 },
                       type := LayerKind.image, name := "Image 1",
                       visible := true, locked := false }]
          canvasObjects := [{ kind := FabricKind.text }] }).1).1 =
    (cleanupOrphanedLayers
      { layers := [{ id := { kind := LayerKind.image, num := 1 },
                     type := LayerKind.image, name := "Image 1",
                     visible := true, locked := false }]
        canvasObjects := [{ kind := FabricKind.text }] }).1 :=
  (C6_reconcile_idempotent _).1

/-- `reseedCounter` keeps the history list. -/
theorem reseedCounter_hist : ∀ s, (reseedCounter s).history = s.history := by
  intro s
  unfold reseedCounter
  split <;> rfl

/-- `reseedCounter` keeps the history position. -/
theorem reseedCounter_idx : ∀ s, (reseedCounter s).historyIndex = s.historyIndex := by
  intro s
  unfold reseedCounter
  split <;> rfl

/-- The orphan sweep keeps the history list. -/
theorem cleanup_hist : ∀ s, (cleanupOrphanedLayers s).1.history = s.history :=
  fun _ => rfl

/-- The orphan sweep keeps the history position. -/
theorem cleanup_idx : ∀ s, (cleanupOrphanedLayers s).1.historyIndex = s.historyIndex :=
  fun _ => rfl

/-- The newest entry after `saveHistory` is the snapshot of the state it
was called on. -/
theorem saveHistory_getLast (s : EditorState) :
    (saveHistory s).history.getLast? = some (snap s) := by
  have key : ∀ (pre : List HistoryState),
      ((if (pre ++ [snap s]).length > 50 then
          ({ s with history := (pre ++ [snap s]).tail,
                    historyIndex := ((pre ++ [snap s]).length : Int) - 2 } : EditorState)
        else
          { s with history := pre ++ [snap s],
                   historyIndex := ((pre ++ [snap s]).length : Int) - 1 }) :
        EditorState).history.getLast? = some (snap s) := by
    intro pre
    split
    · next hlen =>
      cases pre with
      | nil => simp at hlen
      | cons a rest =>
        simp only [List.cons_append, List.tail_cons]
        exact List.getLast?_concat _
    · exact List.getLast?_concat _
  exact key (s.history.take (s.historyIndex + 1).toNat)

/-- A concrete editor state holding one image layer with no grading. -/
def oneImageState : EditorState :=
  { layers := [{ id := { kind := LayerKind.image, num := 1 }, type := LayerKind.image,
                 name := "Image 1", visible := true, locked := false,
                 sourceUrl := some "a.png" }]
    canvasObjects := [{ layerId := some { kind := LayerKind.image, num := 1 },
                        kind := FabricKind.image, src := some "a.png" }] }

/-- C1 counterexample: `applyColorGrade` — a mutating Layer Store operation
named by the claim — changes the layer list of a concrete state but
records no history snapshot at all, so not every mutating operation calls
`saveHistory()` before its change. -/
theorem C1_counterexample :
    (applyColorGrade LutPreset.noir 100 (some { kind := LayerKind.image, num := 1 })
        oneImageState).layers ≠ oneImageState.layers ∧
    (applyColorGrade LutPreset.noir 100 (some { kind := LayerKind.image, num := 1 })
        oneImageState).history = oneImageState.history ∧
    oneImageState.history = [] := by
  refine ⟨?_, rfl, rfl⟩
  intro h
  have := congrArg (fun ls => ls.map (fun l => l.lutPreset)) h
  simp [applyColorGrade, oneImageState] at this

/-- C1 (amended): the add-image/video/text and delete-layer operations all
run `saveHistory()` first and their commit never touches the history, the
entry captured is the pre-mutation snapshot, and `updateTextLayer` does the
same whenever it mutates at all; the grading operations (`applyColorGrade`,
`resetColorGrade`, `applyManualAdjustment`, `applyColorWheel`) and the
visibility/lock toggles never record a snapshot. -/
theorem C1_snapshot_before_mutation :
    (∀ (op : EditorOp) (s : EditorState),
      applyOp op s = applyOpCommit op (saveHistory s) ∧
      (applyOp op s).history = (saveHistory s).history ∧
      (applyOp op s).historyIndex = (saveHistory s).historyIndex) ∧
    (∀ s : EditorState, (saveHistory s).history.getLast? = some (snap s)) ∧
    (∀ (lid : LayerId) (u : TextUpdates) (s : EditorState),
      (updateTextLayer lid u s).history = (saveHistory s).history ∨
      updateTextLayer lid u s = s) ∧
    (∀ (lut : LutPreset) (i : ℚ) (lid : Option LayerId) (s : EditorState),
      (applyColorGrade lut i lid s).history = s.history ∧
      (applyColorGrade lut i lid s).historyIndex = s.historyIndex) ∧
    (∀ (lid : Option LayerId) (s : EditorState),
      (resetColorGrade lid s).history = s.history) ∧
    (∀ (fld : ManualField) (v : ℚ) (lid : Option LayerId) (s : EditorState),
      (applyManualAdjustment fld v lid s).history = s.history) ∧
    (∀ (w : WheelField) (v : RGB) (lid : Option LayerId) (s : EditorState),
      (applyColorWheel w v lid s).history = s.history) ∧
    (∀ (lid : LayerId) (s : EditorState),
      (toggleLayerVisibility lid s).history = s.history ∧
      (toggleLayerLock lid s).history = s.history) := by
  refine ⟨?_, saveHistory_getLast, ?_, ?_, ?_, ?_, ?_, ?_⟩
  · intro op s
    cases op with
    | addImage url =>
      exact ⟨rfl,
        by simp [applyOp, addImage, addImageCommit, reseedCounter_hist],
        by simp [applyOp, addImage, addImageCommit, reseedCounter_idx]⟩
    | addVideo url =>
      exact ⟨rfl,
        by simp [applyOp, addVideo, addVideoCommit, reseedCounter_hist],
        by simp [applyOp, addVideo, addVideoCommit, reseedCounter_idx]⟩
    | addText opts =>
      exact ⟨rfl,
        by simp [applyOp, addText, addTextCommit, reseedCounter_hist],
        by simp [applyOp, addText, addTextCommit, reseedCounter_idx]⟩
    | deleteLayer lid =>
      exact ⟨rfl,
        by simp [applyOp, deleteLayer, deleteLayerCommit, reseedCounter_hist, cleanup_hist],
        by simp [applyOp, deleteLayer, deleteLayerCommit, reseedCounter_idx, cleanup_idx]⟩
  · intro lid u s
    unfold updateTextLayer
    cases List.find? (fun o => decide (o.layerId = some lid)) s.canvasObjects with
    | none => exact Or.inr rfl
    | some obj =>
      dsimp only
      by_cases hk : obj.kind = FabricKind.text
      · rw [if_pos hk]
        exact Or.inl rfl
      · rw [if_neg hk]
        exact Or.inr rfl
  · intro lut i lid s
    cases lid <;> exact ⟨rfl, rfl⟩
  · intro lid s
    cases lid <;> rfl
  · intro fld v lid s
    cases lid <;> rfl
  · intro w v lid s
    rfl
  · intro lid s
    refine ⟨?_, ?_⟩
    · unfold toggleLayerVisibility
      cases List.find? (fun o => decide (o.layerId = some lid)) s.canvasObjects <;> rfl
    · unfold toggleLayerLock
      cases List.find? (fun o => decide (o.layerId = some lid)) s.canvasObjects <;> rfl

/-- A concrete editor state holding one video layer with no grading. -/
def oneVideoState : EditorState :=
  { layers := [{ id := { kind := LayerKind.video, num := 1 }, type := LayerKind.video,
                 name := "Video 1", visible := true, locked := false,
                 sourceUrl := some "v.mp4" }]
    canvasObjects := [{ layerId := some { kind := LayerKind.video, num := 1 },
                        kind := FabricKind.image, src := some "v.mp4" }] }

/-- C8 counterexample: with the layer id omitted, `applyColorGrade` leaves
a video layer completely untouched (its `lutPreset` stays unset), so the
omitted-id form does not apply the update to video layers. -/
theorem C8_counterexample :
    (applyColorGrade LutPreset.gold 50 none oneVideoState).layers = oneVideoState.layers ∧
    oneVideoState.layers.map (fun l => (l.type, l.lutPreset)) =
      [(LayerKind.video, (none : Option LutPreset))] := by
  constructor
  · simp [applyColorGrade, oneVideoState]
  · rfl

/-- Projection of one manual slider, for stating merge preservation. -/
def manualProj : ManualField → ManualAdjustments → ℚ
  | ManualField.exposure, a => a.exposure
  | ManualField.contrast, a => a.contrast
  | ManualField.saturation, a => a.saturation
  | ManualField.temperature, a => a.temperature

/-- Projection of one color wheel, for stating merge preservation. -/
def wheelProj : WheelField → ColorWheel → RGB
  | WheelField.lift, cw => cw.lift
  | WheelField.gamma, cw => cw.gamma
  | WheelField.gain, cw => cw.gain
  | WheelField.offset, cw => cw.offset

/-- The all-zero manual block the source defaults to before merging. -/
def zeroManual : ManualAdjustments :=
  { exposure := 0, contrast := 0, saturation := 0, temperature := 0 }

/-- The all-zero wheels block the source defaults to before merging. -/
def zeroWheels : ColorWheel :=
  { lift := { r := 0, g := 0, b := 0 }, gamma := { r := 0, g := 0, b := 0 },
    gain := { r := 0, g := 0, b := 0 }, offset := { r := 0, g := 0, b := 0 } }

/-- C8 (amended): the omitted-id grading forms update exactly the *image*
layers (video and text layers are skipped), and in both the targeted and
the omitted form the update is a merge — ids, types, and every grading
sub-block not named by the update are preserved, and the merged block keeps
its other fields. -/
theorem C8_grading_merge_semantics :
    (∀ (lut : LutPreset) (i : ℚ) (s : EditorState),
      (applyColorGrade lut i none s).layers.map (fun l => l.manualAdjustments) =
        s.layers.map (fun l => l.manualAdjustments) ∧
      (applyColorGrade lut i none s).layers.map (fun l => l.advancedColorGrade) =
        s.layers.map (fun l => l.advancedColorGrade) ∧
      (applyColorGrade lut i none s).layers.map (fun l => (l.id, l.type)) =
        s.layers.map (fun l => (l.id, l.type)) ∧
      (applyColorGrade lut i none s).layers.map (fun l => l.lutPreset) =
        s.layers.map (fun l =>
          if l.type = LayerKind.image then some lut else l.lutPreset) ∧
      (applyColorGrade lut i none s).layers.map (fun l => l.lutIntensity) =
        s.layers.map (fun l =>
          if l.type = LayerKind.image then some i else l.lutIntensity)) ∧
    (∀ (lut : LutPreset) (i : ℚ) (lid : LayerId) (s : EditorState),
      (applyColorGrade lut i (some lid) s).layers.map (fun l => l.manualAdjustments) =
        s.layers.map (fun l => l.manualAdjustments) ∧
      (applyColorGrade lut i (some lid) s).layers.map (fun l => l.advancedColorGrade) =
        s.layers.map (fun l => l.advancedColorGrade) ∧
      (applyColorGrade lut i (some lid) s).layers.map (fun l => l.lutPreset) =
        s.layers.map (fun l => if l.id = lid then some lut else l.lutPreset)) ∧
    (∀ (fld : ManualField) (v : ℚ) (l : Layer),
      (updateManualLayer fld v l).advancedColorGrade = l.advancedColorGrade ∧
      (updateManualLayer fld v l).lutPreset = l.lutPreset ∧
      (updateManualLayer fld v l).lutIntensity = l.lutIntensity ∧
      (updateManualLayer fld v l).manualAdjustments =
        some (setManualField fld v (l.manualAdjustments.getD zeroManual)) ∧
      manualProj fld (setManualField fld v (l.manualAdjustments.getD zeroManual)) = v) ∧
    (∀ (fld fld2 : ManualField) (v : ℚ) (a : ManualAdjustments), fld ≠ fld2 →
      manualProj fld2 (setManualField fld v a) = manualProj fld2 a) ∧
    (∀ (fld : ManualField) (v : ℚ) (s : EditorState),
      (applyManualAdjustment fld v none s).layers.map (fun l => l.advancedColorGrade) =
        s.layers.map (fun l => l.advancedColorGrade) ∧
      (applyManualAdjustment fld v none s).layers.map (fun l => l.manualAdjustments) =
        s.layers.map (fun l =>
          if l.type = LayerKind.image then
            some (setManualField fld v (l.manualAdjustments.getD zeroManual))
          else l.manualAdjustments)) ∧
    (∀ (w : WheelField) (v : RGB) (l : Layer),
      (updateWheelLayer w v l).manualAdjustments = l.manualAdjustments ∧
      (updateWheelLayer w v l).lutPreset = l.lutPreset ∧
      ((updateWheelLayer w v l).advancedColorGrade.getD {}).curves =
        (l.advancedColorGrade.getD {}).curves ∧
      ((updateWheelLayer w v l).advancedColorGrade.getD {}).primaryAdjustments =
        (l.advancedColorGrade.getD {}).primaryAdjustments ∧
      ((updateWheelLayer w v l).advancedColorGrade.getD {}).primaryBars =
        (l.advancedColorGrade.getD {}).primaryBars ∧
      ((updateWheelLayer w v l).advancedColorGrade.getD {}).advancedCurves =
        (l.advancedColorGrade.getD {}).advancedCurves ∧
      ((updateWheelLayer w v l).advancedColorGrade.getD {}).hslAdjustments =
        (l.advancedColorGrade.getD {}).hslAdjustments ∧
      ((updateWheelLayer w v l).advancedColorGrade.getD {}).advancedAdjustments =
        (l.advancedColorGrade.getD {}).advancedAdjustments ∧
      ((updateWheelLayer w v l).advancedColorGrade.getD {}).rgbMixer =
        (l.advancedColorGrade.getD {}).rgbMixer ∧
      ((updateWheelLayer w v l).advancedColorGrade.getD {}).colorWheels =
        some (setWheelField w v
          ((l.advancedColorGrade.getD {}).colorWheels.getD zeroWheels))) ∧
    (∀ (w w2 : WheelField) (v : RGB) (cw : ColorWheel), w ≠ w2 →
      wheelProj w2 (setWheelField w v cw) = wheelProj w2 cw) := by
  refine ⟨?_, ?_, ?_, ?_, ?_, ?_, ?_⟩
  · intro lut i s
    refine ⟨?_, ?_, ?_, ?_, ?_⟩ <;>
      · simp only [applyColorGrade, List.map_map]
        apply List.map_congr_left
        intro l hl
        by_cases ht : l.type = LayerKind.image <;> simp [ht]
  · intro lut i lid s
    refine ⟨?_, ?_, ?_⟩ <;>
      · simp only [applyColorGrade, List.map_map]
        apply List.map_congr_left
        intro l hl
        by_cases ht : l.id = lid <;> simp [ht]
  · intro fld v l
    refine ⟨rfl, rfl, rfl, rfl, ?_⟩
    cases fld <;> rfl
  · intro fld fld2 v a h
    cases fld <;> cases fld2 <;>
      first
        | exact absurd rfl h
        | rfl
  · intro fld v s
    refine ⟨?_, ?_⟩ <;>
      · simp only [applyManualAdjustment, List.map_map]
        apply List.map_congr_left
        intro l hl
        by_cases ht : l.type = LayerKind.image <;>
          simp [ht, updateManualLayer, zeroManual]
  · intro w v l
    refine ⟨rfl, rfl, ?_, ?_, ?_, ?_, ?_, ?_, ?_, ?_⟩ <;>
      simp [updateWheelLayer, zeroWheels]
  · intro w w2 v cw h
    cases w <;> cases w2 <;>
      first
        | exact absurd rfl h
        | rfl

/-- Closed witness for C8 at concrete fields: setting exposure leaves the
contrast slider alone, and setting the lift wheel leaves the gain wheel
alone. -/
theorem C8_grading_merge_semantics_witness :
    manualProj ManualField.contrast
      (setManualField ManualField.exposure 5 zeroManual) =
      manualProj ManualField.contrast zeroManual ∧
    wheelProj WheelField.gain
      (setWheelField WheelField.lift { r := 1, g := 2, b := 3 } zeroWheels) =
      wheelProj WheelField.gain zeroWheels :=
  ⟨C8_grading_merge_semantics.2.2.2.1 ManualField.exposure ManualField.contrast 5 zeroManual
      (by decide),
   C8_grading_merge_semantics.2.2.2.2.2.2 WheelField.lift WheelField.gain
      { r := 1, g := 2, b := 3 } zeroWheels (by decide)⟩

/-- A list already sorted (weakly) by `x` is fixed by `sortByX`. -/
theorem sortByX_sorted_id : ∀ l : List CurvePoint,
    l.Pairwise (fun a b => a.x ≤ b.x) → sortByX l = l := by
  intro l h
  induction l with
  | nil => rfl
  | cons p rest ih =>
    obtain ⟨hp, hrest⟩ := List.pairwise_cons.mp h
    rw [sortByX, ih hrest]
    cases rest with
    | nil => rfl
    | cons q rs =>
      have hpq : p.x ≤ q.x := hp q (List.mem_cons_self _ _)
      simp [insertByX, hpq]

/-- In a strictly `x`-sorted list, the last point has the largest `x`. -/
theorem getLast_x_max : ∀ (l : List CurvePoint) (hl : l ≠ []),
    l.Pairwise (fun a b => a.x < b.x) → ∀ a ∈ l, a.x ≤ (l.getLast hl).x := by
  intro l
  induction l with
  | nil => intro hl; exact absurd rfl hl
  | cons p rest ih =>
    intro hl hs a ha
    obtain ⟨hp, hrest⟩ := List.pairwise_cons.mp hs
    cases rest with
    | nil =>
      rcases List.mem_singleton.mp ha with rfl
      exact le_refl _
    | cons q rs =>
      rw [List.getLast_cons (List.cons_ne_nil _ _)]
      rcases List.mem_cons.mp ha with rfl | ha2
      · exact le_of_lt (hp _ (List.getLast_mem _))
      · exact ih (List.cons_ne_nil _ _) hrest a ha2

/-- In a strictly `x`-sorted list, points with equal `x` are identical. -/
theorem eq_of_x_eq_mem : ∀ (l : List CurvePoint),
    l.Pairwise (fun a b => a.x < b.x) →
    ∀ a ∈ l, ∀ b ∈ l, a.x = b.x → a = b := by
  intro l hs
  induction l with
  | nil => intro a ha; exact absurd ha (List.not_mem_nil a)
  | cons p rest ih =>
    obtain ⟨hp, hrest⟩ := List.pairwise_cons.mp hs
    intro a ha b hb hab
    rcases List.mem_cons.mp ha with rfl | ha2 <;>
      rcases List.mem_cons.mp hb with rfl | hb2
    · rfl
    · exact absurd hab (ne_of_lt (hp b hb2))
    · exact absurd hab.symm (ne_of_lt (hp a ha2))
    · exact ih hrest a ha2 b hb2 hab

/-- The interpolation loop returns the linear interpolation on the segment
that contains `x` strictly to the right of its left endpoint. -/
theorem interpSegments_correct (x : ℚ) :
    ∀ (pre post : List CurvePoint) (p q : CurvePoint),
      (pre ++ p :: q :: post).Pairwise (fun a b => a.x < b.x) →
      p.x < x → x ≤ q.x →
      interpSegments x (pre ++ p :: q :: post) =
        p.y + (x - p.x) / (q.x - p.x) * (q.y - p.y) := by
  intro pre
  induction pre with
  | nil =>
    intro post p q hs h1 h2
    rw [List.nil_append, interpSegments, if_pos ⟨le_of_lt h1, h2⟩]
  | cons a pre2 ih =>
    intro post p q hs h1 h2
    obtain ⟨ha, hrest⟩ := List.pairwise_cons.mp hs
    have hmem : p ∈ pre2 ++ p :: q :: post := by
      simp
    cases hpre : pre2 with
    | nil =>
      subst hpre
      rw [List.cons_append, List.nil_append, interpSegments,
        if_neg (fun hc => absurd (lt_of_lt_of_le h1 hc.2) (lt_irrefl _))]
      rw [interpSegments, if_pos ⟨le_of_lt h1, h2⟩]
    | cons b pre3 =>
      subst hpre
      have hbp : b.x < p.x := by
        apply List.rel_of_pairwise_cons hrest
        simp
      rw [List.cons_append, List.cons_append, interpSegments]
      rw [if_neg (fun hc => absurd (lt_of_lt_of_le (lt_trans hbp h1) hc.2) (lt_irrefl _))]
      exact ih post p q (by simpa using hrest) h1 h2

/-- `evaluateCurve` on an already strictly sorted list of at least two
points, written as its clamp/boundary/interpolation case split. -/
theorem evaluateCurve_sorted (pts : List CurvePoint) (x : ℚ)
    (hs : sortByX pts = pts) (h2 : 2 ≤ pts.length) (hne : pts ≠ []) :
    evaluateCurve pts x =
      (if max 0 (min 1 x) ≤ (pts.head hne).x then (pts.head hne).y
       else if (pts.getLast hne).x ≤ max 0 (min 1 x) then (pts.getLast hne).y
       else interpSegments (max 0 (min 1 x)) pts) := by
  match pts with
  | [] => simp at h2
  | [p] => simp at h2
  | a :: b :: t =>
    show evaluateCurve (a :: b :: t) x = _
    unfold evaluateCurve
    rw [hs]
    rfl

/-- Membership in an insertion. -/
theorem insertByX_mem (p a : CurvePoint) : ∀ l : List CurvePoint,
    a ∈ insertByX p l ↔ a = p ∨ a ∈ l := by
  intro l
  induction l with
  | nil => simp [insertByX]
  | cons q rest ih =>
    rw [insertByX]
    split
    · simp
    · simp only [List.mem_cons, ih]
      tauto

/-- Insertion preserves length. -/
theorem insertByX_length (p : CurvePoint) : ∀ l : List CurvePoint,
    (insertByX p l).length = l.length + 1 := by
  intro l
  induction l with
  | nil => rfl
  | cons q rest ih =>
    rw [insertByX]
    split
    · rfl
    · simp only [List.length_cons, ih]

/-- Sorting preserves length. -/
theorem sortByX_length : ∀ l : List CurvePoint, (sortByX l).length = l.length := by
  intro l
  induction l with
  | nil => rfl
  | cons p rest ih => rw [sortByX, insertByX_length, ih, List.length_cons]

/-- Insertion preserves weak sortedness by `x`. -/
theorem insertByX_sorted (p : CurvePoint) : ∀ l : List CurvePoint,
    l.Pairwise (fun a b => a.x ≤ b.x) →
    (insertByX p l).Pairwise (fun a b => a.x ≤ b.x) := by
  intro l
  induction l with
  | nil =>
    intro _
    simp [insertByX]
  | cons q rest ih =>
    intro h
    obtain ⟨hq, hrest⟩ := List.pairwise_cons.mp h
    rw [insertByX]
    split
    · next hle =>
      refine List.pairwise_cons.mpr ⟨?_, h⟩
      intro b hb
      rcases List.mem_cons.mp hb with rfl | hb2
      · exact hle
      · exact le_trans hle (hq b hb2)
    · next hgt =>
      push_neg at hgt
      refine List.pairwise_cons.mpr ⟨?_, ih hrest⟩
      intro b hb
      rcases (insertByX_mem p b rest).mp hb with rfl | hb2
      · exact le_of_lt hgt
      · exact hq b hb2

/-- `sortByX` produces a weakly sorted list. -/
theorem sortByX_sorted : ∀ l : List CurvePoint,
    (sortByX l).Pairwise (fun a b => a.x ≤ b.x) := by
  intro l
  induction l with
  | nil => exact List.Pairwise.nil
  | cons p rest ih => exact insertByX_sorted p _ ih

/-- Sorting is idempotent. -/
theorem sortByX_idem (l : List CurvePoint) : sortByX (sortByX l) = sortByX l :=
  sortByX_sorted_id _ (sortByX_sorted l)

/-- Evaluating an arbitrary list of at least two control points is the
same as evaluating its `x`-sorted permutation. -/
theorem evaluateCurve_eq_sorted (points : List CurvePoint) (x : ℚ)
    (h2 : 2 ≤ points.length) :
    evaluateCurve points x = evaluateCurve (sortByX points) x := by
  match points, h2 with
  | a :: b :: t, _ =>
    rcases hsh : sortByX (a :: b :: t) with _ | ⟨c, _ | ⟨d, u⟩⟩
    · have := sortByX_length (a :: b :: t)
      rw [hsh] at this
      simp at this
    · have := sortByX_length (a :: b :: t)
      rw [hsh] at this
      simp at this
    · show evaluateCurve (a :: b :: t) x = evaluateCurve (c :: d :: u) x
      unfold evaluateCurve
      rw [hsh, show sortByX (c :: d :: u) = c :: d :: u from by
        rw [← hsh, sortByX_idem]]

/-- For `x` already inside the unit interval the clamp is the identity. -/
theorem clampUnit_eq (x : ℚ) (h0 : 0 ≤ x) (h1 : x ≤ 1) :
    max 0 (min 1 x) = x := by
  rw [min_eq_right h1, max_eq_right h0]

/-- `evaluateCurve` clamps to the first/last `y` outside the sorted range
(strictly sorted lists of at least two points, `x` in the unit interval). -/
theorem evaluateCurve_boundary (pts : List CurvePoint) (x : ℚ) (hne : pts ≠ [])
    (hsorted : pts.Pairwise (fun a b => a.x < b.x)) (hlen : 2 ≤ pts.length)
    (h0 : 0 ≤ x) (h1 : x ≤ 1) :
    (x ≤ (pts.head hne).x → evaluateCurve pts x = (pts.head hne).y) ∧
    ((pts.getLast hne).x ≤ x → evaluateCurve pts x = (pts.getLast hne).y) := by
  have hfix : sortByX pts = pts :=
    sortByX_sorted_id pts (hsorted.imp le_of_lt)
  rw [evaluateCurve_sorted pts x hfix hlen hne, clampUnit_eq x h0 h1]
  have hheadlast : (pts.head hne).x < (pts.getLast hne).x := by
    match pts, hne with
    | a :: b :: t, _ =>
      have : a.x < (List.getLast (b :: t) (List.cons_ne_nil _ _)).x :=
        (List.pairwise_cons.mp hsorted).1 _ (List.getLast_mem _)
      rw [List.getLast_cons (List.cons_ne_nil _ _)]
      exact this
    | [a], _ => simp at hlen
  constructor
  · intro hx
    rw [if_pos hx]
  · intro hx
    rw [if_neg (fun hc => absurd (lt_of_lt_of_le hheadlast (le_trans hx hc))
          (lt_irrefl _)), if_pos hx]

/-- `evaluateCurve` linearly interpolates on the segment containing `x`
(strictly sorted lists, `x` in the unit interval). -/
theorem evaluateCurve_interp (pre post : List CurvePoint) (p q : CurvePoint) (x : ℚ)
    (hsorted : (pre ++ p :: q :: post).Pairwise (fun a b => a.x < b.x))
    (h0 : 0 ≤ x) (h1 : x ≤ 1) (hp : p.x < x) (hq : x ≤ q.x) :
    evaluateCurve (pre ++ p :: q :: post) x =
      p.y + (x - p.x) / (q.x - p.x) * (q.y - p.y) := by
  have hne : pre ++ p :: q :: post ≠ [] := by simp
  have hlen : 2 ≤ (pre ++ p :: q :: post).length := by
    simp only [List.length_append, List.length_cons]
    omega
  have hfix : sortByX (pre ++ p :: q :: post) = pre ++ p :: q :: post :=
    sortByX_sorted_id _ (hsorted.imp le_of_lt)
  have hqmem : q ∈ pre ++ p :: q :: post := by simp
  rw [evaluateCurve_sorted _ x hfix hlen hne, clampUnit_eq x h0 h1]
  have hheadle : ((pre ++ p :: q :: post).head hne).x ≤ p.x := by
    cases pre with
    | nil => exact le_refl _
    | cons a pre2 =>
      have hh : (((a :: pre2) ++ p :: q :: post).head hne) = a := rfl
      rw [hh]
      have hsorted2 : List.Pairwise (fun c d => c.x < d.x)
          (a :: (pre2 ++ p :: q :: post)) := by
        rw [List.cons_append] at hsorted
        exact hsorted
      have hap : a.x < p.x := List.rel_of_pairwise_cons hsorted2 (by simp)
      exact le_of_lt hap
  rw [if_neg (fun hc => absurd (lt_of_lt_of_le hp (le_trans hc hheadle)) (lt_irrefl _))]
  by_cases hlast : ((pre ++ p :: q :: post).getLast hne).x ≤ x
  · have hql : q.x ≤ ((pre ++ p :: q :: post).getLast hne).x :=
      getLast_x_max _ hne hsorted q hqmem
    have hxq : x = q.x := le_antisymm hq (le_trans hql hlast)
    have hlq : ((pre ++ p :: q :: post).getLast hne).x = q.x :=
      le_antisymm (le_trans hlast (le_of_eq hxq)) hql
    have hqlast : (pre ++ p :: q :: post).getLast hne = q :=
      eq_of_x_eq_mem _ hsorted _ (List.getLast_mem hne) q hqmem hlq
    rw [if_pos hlast, hqlast, hxq]
    have hdq : q.x - p.x ≠ 0 :=
      sub_ne_zero.mpr (ne_of_gt (lt_of_lt_of_le hp hq))
    field_simp
  · rw [if_neg hlast]
    exact interpSegments_correct x pre post p q hsorted hp hq

/-- C5: curve evaluation semantics — 0 points is the identity, 1 point is
the constant `y`, on any strictly `x`-sorted list of at least two points
the result clamps to the first/last point's `y` outside their range and
piecewise-linearly interpolates between adjacent points inside it, and the
two-point curve through (0,0) and (1,1) is the identity on `[0, 1]`. -/
theorem C5_curve_evaluation :
    (∀ x : ℚ, evaluateCurve [] x = x) ∧
    (∀ (p : CurvePoint) (x : ℚ), evaluateCurve [p] x = p.y) ∧
    (∀ (pts : List CurvePoint) (x : ℚ) (hne : pts ≠ []),
      pts.Pairwise (fun a b => a.x < b.x) → 2 ≤ pts.length → 0 ≤ x → x ≤ 1 →
      (x ≤ (pts.head hne).x → evaluateCurve pts x = (pts.head hne).y) ∧
      ((pts.getLast hne).x ≤ x → evaluateCurve pts x = (pts.getLast hne).y)) ∧
    (∀ (pre post : List CurvePoint) (p q : CurvePoint) (x : ℚ),
      (pre ++ p :: q :: post).Pairwise (fun a b => a.x < b.x) →
      0 ≤ x → x ≤ 1 → p.x < x → x ≤ q.x →
      evaluateCurve (pre ++ p :: q :: post) x =
        p.y + (x - p.x) / (q.x - p.x) * (q.y - p.y)) ∧
    (∀ (points : List CurvePoint) (x : ℚ), 2 ≤ points.length →
      evaluateCurve points x = evaluateCurve (sortByX points) x) ∧
    (∀ x : ℚ, 0 ≤ x → x ≤ 1 →
      evaluateCurve [{ x := 0, y := 0 }, { x := 1, y := 1 }] x = x) := by
  refine ⟨fun x => rfl, fun p x => rfl, evaluateCurve_boundary, evaluateCurve_interp,
    fun points x h2 => evaluateCurve_eq_sorted points x h2, ?_⟩
  intro x h0 h1
  by_cases hx0 : x ≤ 0
  · have hx : x = 0 := le_antisymm hx0 h0
    subst hx
    exact (evaluateCurve_boundary [{ x := 0, y := 0 }, { x := 1, y := 1 }] 0
      (List.cons_ne_nil _ _) (by norm_num [List.pairwise_cons])
      (by norm_num) (by norm_num) (by norm_num)).1 (by norm_num)
  · push_neg at hx0
    have key := evaluateCurve_interp [] [] { x := 0, y := 0 } { x := 1, y := 1 } x
      (by norm_num [List.pairwise_cons]) h0 h1 hx0 h1
    simpa using key

/-- Closed witness for C5: the (0,0)–(1,1) curve at 1/3 evaluates to 1/3,
and at 2 (clamped) to the last point's value 1. -/
theorem C5_curve_evaluation_witness :
    evaluateCurve [{ x := 0, y := 0 }, { x := 1, y := 1 }] (1 / 3) = 1 / 3 :=
  C5_curve_evaluation.2.2.2.2.2 (1 / 3) (by norm_num) (by norm_num)

/-- The id-freshness invariant maintained by the editor: every live layer's
numeric suffix is at most the counter, and live ids are pairwise distinct. -/
def idInvariant (s : EditorState) : Prop :=
  (∀ l ∈ s.layers, l.id.num ≤ s.layerCount) ∧
  (s.layers.map (fun l => l.id)).Nodup

/-- A foldl-max accumulator only grows. -/
theorem foldl_max_ge_init : ∀ (layers : List Layer) (a : Nat),
    a ≤ layers.foldl (fun m l => max m l.id.num) a := by
  intro layers
  induction layers with
  | nil => intro a; exact le_refl a
  | cons p rest ih =>
    intro a
    exact le_trans (le_max_left a p.id.num) (ih (max a p.id.num))

/-- `getMaxLayerSuffix` dominates every live suffix. -/
theorem getMaxLayerSuffix_ge : ∀ (layers : List Layer) (l : Layer), l ∈ layers →
    l.id.num ≤ getMaxLayerSuffix layers := by
  have key : ∀ (layers : List Layer) (a : Nat) (l : Layer), l ∈ layers →
      l.id.num ≤ layers.foldl (fun m q => max m q.id.num) a := by
    intro layers
    induction layers with
    | nil =>
      intro a l hl
      exact absurd hl (List.not_mem_nil l)
    | cons p rest ih =>
      intro a l hl
      rcases List.mem_cons.mp hl with rfl | hl2
      · exact le_trans (le_max_right a l.id.num) (foldl_max_ge_init rest _)
      · exact ih _ l hl2
  intro layers l hl
  exact key layers 0 l hl

/-- `reseedCounter` keeps the layer list. -/
theorem reseed_layers (s : EditorState) : (reseedCounter s).layers = s.layers := by
  unfold reseedCounter
  split <;> rfl

/-- `reseedCounter` never lowers the counter. -/
theorem reseed_count_ge (s : EditorState) :
    s.layerCount ≤ (reseedCounter s).layerCount := by
  unfold reseedCounter
  split
  · next h => exact le_of_lt h
  · exact le_refl _

/-- After `reseedCounter`, the counter dominates the maximal suffix. -/
theorem reseed_count_ge_suffix (s : EditorState) :
    getMaxLayerSuffix s.layers ≤ (reseedCounter s).layerCount := by
  unfold reseedCounter
  split
  · next h => exact le_refl _
  · next h => exact le_of_not_lt h

/-- `saveHistory` keeps the layer list and counter. -/
theorem saveHistory_layers (s : EditorState) :
    (saveHistory s).layers = s.layers ∧ (saveHistory s).layerCount = s.layerCount := by
  constructor <;>
    · simp only [saveHistory]
      split <;> rfl

/-- The invariant survives shrinking the layer list and raising the
counter. -/
theorem idInvariant_of_sublist (t u : EditorState)
    (hsub : t.layers.Sublist u.layers) (hcnt : u.layerCount ≤ t.layerCount)
    (h : idInvariant u) : idInvariant t := by
  refine ⟨?_, ?_⟩
  · intro l hl
    exact le_trans (h.1 l (hsub.mem hl)) hcnt
  · exact (h.2).sublist (hsub.map _)

/-- The invariant survives `reseedCounter`. -/
theorem idInvariant_reseed (s : EditorState) (h : idInvariant s) :
    idInvariant (reseedCounter s) := by
  refine ⟨?_, ?_⟩
  · intro l hl
    rw [reseed_layers] at hl
    exact le_trans (h.1 l hl) (reseed_count_ge s)
  · rw [reseed_layers]
    exact h.2

/-- Prepending a layer whose suffix is one above the counter keeps the
invariant (the fresh id cannot collide with any live id). -/
theorem idInvariant_fresh_cons (t : EditorState) (oldLayers : List Layer)
    (oldCount : Nat) (newLayer : Layer)
    (hlay : t.layers = newLayer :: oldLayers)
    (hcnt : t.layerCount = oldCount + 1)
    (hnum : newLayer.id.num = oldCount + 1)
    (hall : ∀ l ∈ oldLayers, l.id.num ≤ oldCount)
    (hnd : (oldLayers.map (fun l => l.id)).Nodup) :
    idInvariant (reseedCounter t) := by
  apply idInvariant_reseed
  refine ⟨?_, ?_⟩
  · intro l hl
    rw [hlay] at hl
    rcases List.mem_cons.mp hl with rfl | hl2
    · rw [hnum, hcnt]
    · rw [hcnt]
      exact le_trans (hall l hl2) (Nat.le_succ _)
  · rw [hlay, List.map_cons, List.nodup_cons]
    refine ⟨?_, hnd⟩
    intro hmem
    rcases List.mem_map.mp hmem with ⟨l, hl, hid⟩
    have : l.id.num ≤ oldCount := hall l hl
    rw [hid, hnum] at this
    omega

/-- Every modelled editor operation preserves the id invariant. -/
theorem idInvariant_applyOp (op : EditorOp) (s : EditorState)
    (h : idInvariant s) : idInvariant (applyOp op s) := by
  obtain ⟨hs1, hs2⟩ := saveHistory_layers s
  have hinv1 : ∀ l ∈ (saveHistory s).layers, l.id.num ≤ (saveHistory s).layerCount := by
    rw [hs1, hs2]
    exact h.1
  have hinv2 : ((saveHistory s).layers.map (fun l => l.id)).Nodup := by
    rw [hs1]
    exact h.2
  cases op with
  | addImage url =>
    show idInvariant (addImageCommit url (saveHistory s))
    unfold addImageCommit
    exact idInvariant_fresh_cons _ (saveHistory s).layers (saveHistory s).layerCount _
      rfl rfl rfl hinv1 hinv2
  | addVideo url =>
    show idInvariant (addVideoCommit url (saveHistory s))
    unfold addVideoCommit
    exact idInvariant_fresh_cons _ (saveHistory s).layers (saveHistory s).layerCount _
      rfl rfl rfl hinv1 hinv2
  | addText opts =>
    show idInvariant (addTextCommit opts (saveHistory s))
    unfold addTextCommit
    exact idInvariant_fresh_cons _ (saveHistory s).layers (saveHistory s).layerCount _
      rfl rfl rfl hinv1 hinv2
  | deleteLayer lid =>
    show idInvariant (deleteLayerCommit lid (saveHistory s))
    unfold deleteLayerCommit
    apply idInvariant_reseed
    refine idInvariant_of_sublist _ (saveHistory s) ?_ (le_refl _) ⟨hinv1, hinv2⟩
    rw [cleanup_state_eq]
    exact ((List.filter_sublist _).trans (List.filter_sublist _))

/-- Loading any layer list reseeds the counter above every suffix, so the
invariant holds whenever the loaded ids are distinct. -/
theorem idInvariant_load (t : EditorState)
    (hnd : (t.layers.map (fun l => l.id)).Nodup) :
    idInvariant (reseedCounter t) := by
  refine ⟨?_, ?_⟩
  · intro l hl
    rw [reseed_layers] at hl
    exact le_trans (getMaxLayerSuffix_ge t.layers l hl) (reseed_count_ge_suffix t)
  · rw [reseed_layers]
    exact hnd

/-- C7: starting from any loaded layer list with pairwise distinct ids, no
sequence of add/delete operations ever produces two live layers with the
same id — the counter stays at least the maximal numeric suffix, so fresh
ids never collide even after deletions. -/
theorem C7_id_uniqueness (init : List Layer) (ops : List EditorOp)
    (h : (init.map (fun l => l.id)).Nodup) :
    ((runOps ops (loadLayers init initialEditorState)).layers.map
      (fun l => l.id)).Nodup := by
  have base : idInvariant (loadLayers init initialEditorState) :=
    idInvariant_load _ h
  have main : ∀ (ops2 : List EditorOp) (s : EditorState), idInvariant s →
      idInvariant (runOps ops2 s) := by
    intro ops2
    induction ops2 with
    | nil => intro s hs; exact hs
    | cons op rest ih =>
      intro s hs
      exact ih _ (idInvariant_applyOp op s hs)
  exact (main ops _ base).2

/-- Closed witness for C7: churn add, delete, re-add from an empty slide. -/
theorem C7_id_uniqueness_witness :
    ((runOps [EditorOp.addImage "a.png",
              EditorOp.deleteLayer { kind := LayerKind.image, num := 1 },
              EditorOp.addImage "b.png", EditorOp.addText
                { text := "hi", fontFamily := FontFamily.inter, fontSize := 24,
                  fontWeight := 400, fontStyle := FontStyle.normal,
                  color := "#fff", blendMode := BlendMode.normal }]
        (loadLayers [] initialEditorState)).layers.map (fun l => l.id)).Nodup :=
  C7_id_uniqueness [] _ (by simp)

/-- The default entry used with `List.getD` over history lists. -/
def emptyHistoryState : HistoryState := { layers := [], canvasState := [] }

/-- `runOps` unfolds one operation at a time. -/
theorem runOps_cons (op : EditorOp) (ops : List EditorOp) (s : EditorState) :
    runOps (op :: ops) s = runOps ops (applyOp op s) := rfl

/-- Every modelled operation is its commit after `saveHistory`. -/
theorem applyOp_eq_commit (op : EditorOp) (s : EditorState) :
    applyOp op s = applyOpCommit op (saveHistory s) := by
  cases op <;> rfl

/-- The commit phase never touches the history list. -/
theorem applyOpCommit_hist (op : EditorOp) (s : EditorState) :
    (applyOpCommit op s).history = s.history := by
  cases op with
  | addImage url => simp [applyOpCommit, addImageCommit, reseedCounter_hist]
  | addVideo url => simp [applyOpCommit, addVideoCommit, reseedCounter_hist]
  | addText opts => simp [applyOpCommit, addTextCommit, reseedCounter_hist]
  | deleteLayer lid =>
    simp [applyOpCommit, deleteLayerCommit, reseedCounter_hist, cleanup_hist]

/-- The commit phase never touches the history position. -/
theorem applyOpCommit_idx (op : EditorOp) (s : EditorState) :
    (applyOpCommit op s).historyIndex = s.historyIndex := by
  cases op with
  | addImage url => simp [applyOpCommit, addImageCommit, reseedCounter_idx]
  | addVideo url => simp [applyOpCommit, addVideoCommit, reseedCounter_idx]
  | addText opts => simp [applyOpCommit, addTextCommit, reseedCounter_idx]
  | deleteLayer lid =>
    simp [applyOpCommit, deleteLayerCommit, reseedCounter_idx, cleanup_idx]

/-- `saveHistory` called while pointing at the newest entry of a history
shorter than the cap simply appends the current snapshot. -/
theorem saveHistory_at_top (s : EditorState)
    (hidx : s.historyIndex = (s.history.length : Int) - 1)
    (hlen : s.history.length + 1 ≤ 50) :
    saveHistory s = { s with
      history := s.history ++ [snap s]
      historyIndex := (s.history.length : Int) } := by
  have h1 : (s.historyIndex + 1).toNat = s.history.length := by
    rw [hidx]
    omega
  have h2 : s.history.take (s.historyIndex + 1).toNat = s.history := by
    rw [h1]
    simp
  simp only [saveHistory, h2]
  have h3 : ¬ (s.history ++ [snap s]).length > 50 := by
    simp only [List.length_append, List.length_cons, List.length_nil]
    omega
  rw [if_neg h3]
  have h4 : ((s.history ++ [snap s]).length : Int) - 1 = (s.history.length : Int) := by
    simp only [List.length_append, List.length_cons, List.length_nil]
    push_cast
    ring
  rw [h4]

/-- `prefixStates` has one entry per operation. -/
theorem prefixStates_length (ops : List EditorOp) :
    ∀ s, (prefixStates ops s).length = ops.length := by
  induction ops with
  | nil => intro s; rfl
  | cons op rest ih =>
    intro s
    simp only [prefixStates, List.length_cons, ih]

/-- The i-th pre-operation state is the run of the first i operations. -/
theorem prefixStates_getD (ops : List EditorOp) :
    ∀ (s : EditorState) (i : Nat), i < ops.length →
    (prefixStates ops s).getD i initialEditorState = runOps (ops.take i) s := by
  induction ops with
  | nil =>
    intro s i h
    simp at h
  | cons op rest ih =>
    intro s i h
    cases i with
    | zero => rfl
    | succ i2 =>
      show (prefixStates rest (applyOp op s)).getD i2 initialEditorState = _
      rw [List.take_succ_cons, runOps_cons]
      exact ih (applyOp op s) i2 (by simpa using h)

/-- Reading through the `snap` map. -/
theorem getD_map_snap (l : List EditorState) (i : Nat) (h : i < l.length) :
    (l.map snap).getD i emptyHistoryState = snap (l.getD i initialEditorState) := by
  rcases hget : l.get? i with _ | e
  · rw [List.get?_eq_none] at hget
    omega
  · rw [List.getD_eq_getD_get?, List.getD_eq_getD_get?, List.get?_map, hget]
    rfl

/-- Running a sequence of at most 50 operations from a state pointing at
the top of its history appends the pre-operation snapshots in order and
leaves the position at the newest entry. -/
theorem runOps_history (ops : List EditorOp) :
    ∀ (s : EditorState),
      s.historyIndex = (s.history.length : Int) - 1 →
      s.history.length + ops.length ≤ 50 →
      (runOps ops s).history = s.history ++ (prefixStates ops s).map snap ∧
      (runOps ops s).historyIndex =
        ((s.history.length + ops.length : Nat) : Int) - 1 := by
  induction ops with
  | nil =>
    intro s h1 h2
    refine ⟨by simp [runOps, prefixStates], ?_⟩
    simpa [runOps, prefixStates] using h1
  | cons op rest ih =>
    intro s h1 h2
    rw [runOps_cons]
    have hsave := saveHistory_at_top s h1 (by simp at h2; omega)
    have hhist : (applyOp op s).history = s.history ++ [snap s] := by
      rw [applyOp_eq_commit, applyOpCommit_hist, hsave]
    have hidx : (applyOp op s).historyIndex = (s.history.length : Int) := by
      rw [applyOp_eq_commit, applyOpCommit_idx, hsave]
    have hlen2 : (applyOp op s).history.length = s.history.length + 1 := by
      rw [hhist]
      simp
    obtain ⟨ha, hb⟩ := ih (applyOp op s)
      (by rw [hidx, hlen2]; push_cast; ring)
      (by rw [hlen2]; simp at h2; omega)
    constructor
    · rw [ha, hhist]
      show _ = s.history ++ (snap s :: (prefixStates rest (applyOp op s)).map snap)
      rw [List.append_assoc]
      rfl
    · rw [hb, hlen2]
      simp only [List.length_cons]
      congr 1
      push_cast
      ring

/-- One `undo` step from position `j + 1` restores entry `j`. -/
theorem undo_step (s : EditorState) (j : Nat)
    (hi : s.historyIndex = ((j + 1 : Nat) : Int)) (hj : j < s.history.length) :
    undo s = { s with
      historyIndex := (j : Int)
      layers := (s.history.getD j emptyHistoryState).layers
      canvasObjects := (s.history.getD j emptyHistoryState).canvasState } := by
  unfold undo
  rw [if_neg (by rw [hi]; omega)]
  dsimp only
  have h1 : (s.historyIndex - 1).toNat = j := by
    rw [hi]
    omega
  have h2 : s.historyIndex - 1 = (j : Int) := by
    rw [hi]
    push_cast
    ring
  rcases hget : s.history.get? j with _ | e
  · rw [List.get?_eq_none] at hget
    omega
  · rw [h1, h2, hget]
    have h3 : s.history.getD j emptyHistoryState = e := by
      rw [List.getD_eq_getD_get?, hget]
      rfl
    rw [h3]

/-- `undo` at position 0 or below is a no-op. -/
theorem undo_noop (s : EditorState) (h : s.historyIndex ≤ 0) : undo s = s := by
  unfold undo
  rw [if_pos h]

/-- `redo` at the newest entry is a no-op. -/
theorem redo_noop (s : EditorState)
    (h : s.historyIndex ≥ (s.history.length : Int) - 1) : redo s = s := by
  unfold redo
  rw [if_pos h]

/-- One `redo` step from position `j` restores entry `j + 1`. -/
theorem redo_step (s : EditorState) (j : Nat)
    (hi : s.historyIndex = (j : Int)) (hj : j + 1 < s.history.length) :
    redo s = { s with
      historyIndex := ((j + 1 : Nat) : Int)
      layers := (s.history.getD (j + 1) emptyHistoryState).layers
      canvasObjects := (s.history.getD (j + 1) emptyHistoryState).canvasState } := by
  unfold redo
  rw [if_neg (by rw [hi]; omega)]
  dsimp only
  have h1 : (s.historyIndex + 1).toNat = j + 1 := by
    rw [hi]
    omega
  have h2 : s.historyIndex + 1 = ((j + 1 : Nat) : Int) := by
    rw [hi]
    push_cast
    ring
  rcases hget : s.history.get? (j + 1) with _ | e
  · rw [List.get?_eq_none] at hget
    omega
  · rw [h1, h2, hget]
    have h3 : s.history.getD (j + 1) emptyHistoryState = e := by
      rw [List.getD_eq_getD_get?, hget]
      rfl
    rw [h3]

/-- Iterated `undo` from position `k` walks all the way down to entry 0. -/
theorem undo_iter_to_zero (k : Nat) :
    ∀ (s : EditorState), s.historyIndex = (k : Int) → k < s.history.length → 1 ≤ k →
    undo^[k] s = { s with
      historyIndex := 0
      layers := (s.history.getD 0 emptyHistoryState).layers
      canvasObjects := (s.history.getD 0 emptyHistoryState).canvasState } := by
  induction k with
  | zero =>
    intro s _ _ h1
    omega
  | succ k ih =>
    intro s hi hlt _
    rw [Function.iterate_succ_apply]
    have hstep := undo_step s k (by rw [hi]) (by omega)
    rw [hstep]
    cases Nat.eq_zero_or_pos k with
    | inl h0 =>
      subst h0
      rfl
    | inr hpos =>
      have := ih { s with
          historyIndex := (k : Int)
          layers := (s.history.getD k emptyHistoryState).layers
          canvasObjects := (s.history.getD k emptyHistoryState).canvasState }
        rfl (by show k < s.history.length; omega) hpos
      rw [this]

/-- Iterated `redo` from position 0 walks all the way up to entry `k`. -/
theorem redo_iter_from_zero (k : Nat) :
    ∀ (s : EditorState), s.historyIndex = 0 → k < s.history.length → 1 ≤ k →
    redo^[k] s = { s with
      historyIndex := (k : Int)
      layers := (s.history.getD k emptyHistoryState).layers
      canvasObjects := (s.history.getD k emptyHistoryState).canvasState } := by
  have general : ∀ (k j : Nat), ∀ (s : EditorState), s.historyIndex = (j : Int) →
      j + k < s.history.length → 1 ≤ k →
      redo^[k] s = { s with
        historyIndex := ((j + k : Nat) : Int)
        layers := (s.history.getD (j + k) emptyHistoryState).layers
        canvasObjects := (s.history.getD (j + k) emptyHistoryState).canvasState } := by
    intro k
    induction k with
    | zero =>
      intro j s _ _ h1
      omega
    | succ k ih =>
      intro j s hi hlt _
      rw [Function.iterate_succ_apply]
      have hstep := redo_step s j hi (by omega)
      rw [hstep]
      cases Nat.eq_zero_or_pos k with
      | inl h0 =>
        subst h0
        rfl
      | inr hpos =>
        have := ih (j + 1) { s with
            historyIndex := ((j + 1 : Nat) : Int)
            layers := (s.history.getD (j + 1) emptyHistoryState).layers
            canvasObjects := (s.history.getD (j + 1) emptyHistoryState).canvasState }
          rfl (by show j + 1 + k < s.history.length; omega) hpos
        rw [this]
        have harith : j + 1 + k = j + (k + 1) := by omega
        rw [harith]
  intro s hi hlt h1
  have hgen := general k 0 s (by rw [hi]; rfl) (by omega) h1
  have h0k : 0 + k = k := Nat.zero_add k
  rw [hgen, h0k]

/-- C2 (amended): from a fresh editor, any sequence of N snapshotting
mutating operations with 2 ≤ N ≤ 50 satisfies: N undos restore the exact
state before operation 1 (layer list and serialized scene), and N redos
then restore the state after operation N−1 — not after operation N,
because `saveHistory` records only pre-mutation snapshots, so the final
post-operation-N state is never in the history. -/
theorem C2_round_trip_amended (ops : List EditorOp) (s0 : EditorState)
    (hh : s0.history = []) (hi0 : s0.historyIndex = -1)
    (h2 : 2 ≤ ops.length) (h50 : ops.length ≤ 50) :
    (undo^[ops.length] (runOps ops s0)).layers = s0.layers ∧
    (undo^[ops.length] (runOps ops s0)).canvasObjects = s0.canvasObjects ∧
    (redo^[ops.length] (undo^[ops.length] (runOps ops s0))).layers =
      (runOps (ops.take (ops.length - 1)) s0).layers ∧
    (redo^[ops.length] (undo^[ops.length] (runOps ops s0))).canvasObjects =
      (runOps (ops.take (ops.length - 1)) s0).canvasObjects := by
  obtain ⟨hrh, hri⟩ := runOps_history ops s0
    (by rw [hi0, hh]; simp) (by rw [hh]; simpa using h50)
  rw [hh, List.nil_append] at hrh
  rw [hh] at hri
  simp only [List.length_nil, Nat.zero_add] at hri
  have hlen : (runOps ops s0).history.length = ops.length := by
    rw [hrh, List.length_map, prefixStates_length]
  have hM : ops.length = (ops.length - 1) + 1 := by omega
  have hM1 : 1 ≤ ops.length - 1 := by omega
  have hidxM : (runOps ops s0).historyIndex = ((ops.length - 1 : Nat) : Int) := by
    rw [hri]
    omega
  have hundoM := undo_iter_to_zero (ops.length - 1) (runOps ops s0) hidxM
    (by rw [hlen]; omega) hM1
  have hget0 : ((runOps ops s0).history.getD 0 emptyHistoryState) = snap s0 := by
    rw [hrh, getD_map_snap _ _ (by rw [prefixStates_length]; omega),
      prefixStates_getD ops s0 0 (by omega)]
    rfl
  have hexpU : undo^[ops.length] = undo^[(ops.length - 1) + 1] := by
    rw [← hM]
  have hexpR : redo^[ops.length] = redo^[(ops.length - 1) + 1] := by
    rw [← hM]
  have hW : undo^[ops.length] (runOps ops s0) =
      { runOps ops s0 with
        historyIndex := 0
        layers := s0.layers
        canvasObjects := s0.canvasObjects } := by
    rw [hexpU, Function.iterate_succ_apply', hundoM,
      undo_noop _ (le_refl (0 : Int)), hget0]
    exact rfl
  have hgetM : ((runOps ops s0).history.getD (ops.length - 1) emptyHistoryState) =
      snap (runOps (ops.take (ops.length - 1)) s0) := by
    rw [hrh, getD_map_snap _ _ (by rw [prefixStates_length]; omega),
      prefixStates_getD ops s0 (ops.length - 1) (by omega)]
  have hV : redo^[ops.length] (undo^[ops.length] (runOps ops s0)) =
      { runOps ops s0 with
        historyIndex := ((ops.length - 1 : Nat) : Int)
        layers := (runOps (ops.take (ops.length - 1)) s0).layers
        canvasObjects := (runOps (ops.take (ops.length - 1)) s0).canvasObjects } := by
    rw [hW]
    have hredoM := redo_iter_from_zero (ops.length - 1)
      ({ runOps ops s0 with historyIndex := 0, layers := s0.layers, canvasObjects := s0.canvasObjects })
      rfl (by show ops.length - 1 < (runOps ops s0).history.length; rw [hlen]; omega) hM1
    rw [hexpR, Function.iterate_succ_apply', hredoM]
    rw [redo_noop _ (by
      show ((ops.length - 1 : Nat) : Int) ≥ ((runOps ops s0).history.length : Int) - 1
      rw [hlen]
      omega)]
    dsimp only
    rw [hgetM]
    exact rfl
  exact ⟨by rw [hW], by rw [hW], by rw [hV], by rw [hV]⟩

/-- A concrete text-options record. -/
def sampleTextOptions : TextOptions :=
  { text := "hello", fontFamily := FontFamily.inter, fontSize := 24,
    fontWeight := 400, fontStyle := FontStyle.normal, color := "#ffffff",
    blendMode := BlendMode.normal }

/-- C2 counterexample: with a single mutating operation (N = 1), calling
`undo()` N times does not restore the pre-operation state — the one
history entry is the pre-mutation snapshot at position 0 and `undo` is a
no-op there, so the added text layer survives. -/
theorem C2_counterexample :
    (undo^[1] (runOps [EditorOp.addText sampleTextOptions]
        initialEditorState)).layers ≠ initialEditorState.layers := by
  decide

/-- Closed witness for C2 (amended) at a two-operation sequence. -/
theorem C2_round_trip_amended_witness :
    (undo^[2] (runOps [EditorOp.addImage "a.png", EditorOp.addText sampleTextOptions]
        initialEditorState)).layers = initialEditorState.layers ∧
    (undo^[2] (runOps [EditorOp.addImage "a.png", EditorOp.addText sampleTextOptions]
        initialEditorState)).canvasObjects = initialEditorState.canvasObjects ∧
    (redo^[2] (undo^[2] (runOps [EditorOp.addImage "a.png", EditorOp.addText sampleTextOptions]
        initialEditorState))).layers =
      (runOps ([EditorOp.addImage "a.png", EditorOp.addText sampleTextOptions].take 1)
        initialEditorState).layers ∧
    (redo^[2] (undo^[2] (runOps [EditorOp.addImage "a.png", EditorOp.addText sampleTextOptions]
        initialEditorState))).canvasObjects =
      (runOps ([EditorOp.addImage "a.png", EditorOp.addText sampleTextOptions].take 1)
        initialEditorState).canvasObjects :=
  C2_round_trip_amended [EditorOp.addImage "a.png", EditorOp.addText sampleTextOptions]
    initialEditorState rfl rfl (by norm_num) (by norm_num)

end Carousel
